import Mathlib

/-!
Verification development for the wattstap referral service.

The Python sources are embedded shallowly:

* `app/services/telegram_auth.py` — query-string parsing (`urllib.parse.parse_qs`
  with `keep_blank_values=True`), HMAC-SHA256 signature validation and the
  freshness check of `validate_init_data`.
* `app/services/user_service.py` — account lookup, creation, referral-code
  normalization and unique-code generation.
* `app/services/referral_service.py` — referral applicability check, the APPLY
  action, and the read-side statistics.
* `app/routers/auth.py` — the authentication flow (lookup-or-create plus the
  referral decision logic).
* `app/routers/social.py` — the friends list with per-friend bonus.
* `app/models/user.py` — the account record and referral-code alphabet.

Machine integers are modelled as `Nat` with explicit reduction modulo 2^32
where the SHA-256 rounds overflow; byte strings are `List Nat` with entries
below 256; Python strings are Lean `String`/`List Char` (code-point for
code-point); database state is an explicit record of lists threaded through
the operations; `datetime` values are epoch seconds (`Int`).
-/

/-! ### 32-bit words and SHA-256 (the `hashlib.sha256` primitive used by the service) -/

/-- Reduction modulo 2^32, the wrap-around of 32-bit words. -/
def w32 (n : Nat) : Nat := n % 4294967296

/-- Right rotation of a 32-bit word. -/
def rotr32 (x n : Nat) : Nat := w32 ((x >>> n) ||| (x <<< (32 - n)))

/-- The 64 SHA-256 round constants. -/
def shaK : List Nat :=
  [1116352408, 1899447441, 3049323471, 3921009573, 961987163,
   1508970993, 2453635748, 2870763221, 3624381080, 310598401,
   607225278, 1426881987, 1925078388, 2162078206, 2614888103,
   3248222580, 3835390401, 4022224774, 264347078, 604807628,
   770255983, 1249150122, 1555081692, 1996064986, 2554220882,
   2821834349, 2952996808, 3210313671, 3336571891, 3584528711,
   113926993, 338241895, 666307205, 773529912, 1294757372,
   1396182291, 1695183700, 1986661051, 2177026350, 2456956037,
   2730485921, 2820302411, 3259730800, 3345764771, 3516065817,
   3600352804, 4094571909, 275423344, 430227734, 506948616,
   659060556, 883997877, 958139571, 1322822218, 1537002063,
   1747873779, 1955562222, 2024104815, 2227730452, 2361852424,
   2428436474, 2756734187, 3204031479, 3329325298]

/-- The eight SHA-256 working registers. -/
structure ShaState where
  a : Nat
  b : Nat
  c : Nat
  d : Nat
  e : Nat
  f : Nat
  g : Nat
  h : Nat

/-- SHA-256 initial hash value. -/
def shaH0 : ShaState :=
  ⟨1779033703, 3144134277, 1013904242, 2773480762, 1359893119, 2600822924, 528734635, 1541459225⟩

def smallSigma0 (x : Nat) : Nat := (rotr32 x 7) ^^^ (rotr32 x 18) ^^^ (x >>> 3)
def smallSigma1 (x : Nat) : Nat := (rotr32 x 17) ^^^ (rotr32 x 19) ^^^ (x >>> 10)
def bigSigma0 (x : Nat) : Nat := (rotr32 x 2) ^^^ (rotr32 x 13) ^^^ (rotr32 x 22)
def bigSigma1 (x : Nat) : Nat := (rotr32 x 6) ^^^ (rotr32 x 11) ^^^ (rotr32 x 25)

/-- Extend the 16 message-schedule words of a block by `n` further words. -/
def extendSchedule : List Nat → Nat → List Nat
  | ws, 0 => ws
  | ws, n + 1 =>
    let L := ws.length
    let nw := w32 (smallSigma1 (ws.getD (L - 2) 0) + ws.getD (L - 7) 0 +
                   smallSigma0 (ws.getD (L - 15) 0) + ws.getD (L - 16) 0)
    extendSchedule (ws ++ [nw]) n

/-- One SHA-256 round, consuming a (round constant, schedule word) pair. -/
def shaRound (st : ShaState) (kw : Nat × Nat) : ShaState :=
  let t1 := w32 (st.h + bigSigma1 st.e +
                 ((st.e &&& st.f) ^^^ ((0xffffffff ^^^ st.e) &&& st.g)) + kw.1 + kw.2)
  let t2 := w32 (bigSigma0 st.a + ((st.a &&& st.b) ^^^ (st.a &&& st.c) ^^^ (st.b &&& st.c)))
  ⟨w32 (t1 + t2), st.a, st.b, st.c, w32 (st.d + t1), st.e, st.f, st.g⟩

/-- Compress one 512-bit block into the running state. -/
def compressBlock (st : ShaState) (ws : List Nat) : ShaState :=
  let fin := (shaK.zip ws).foldl shaRound st
  ⟨w32 (st.a + fin.a), w32 (st.b + fin.b), w32 (st.c + fin.c), w32 (st.d + fin.d),
   w32 (st.e + fin.e), w32 (st.f + fin.f), w32 (st.g + fin.g), w32 (st.h + fin.h)⟩

/-- Group bytes into big-endian 32-bit words (full groups of four). -/
def bytesToWords : List Nat → List Nat
  | b0 :: b1 :: b2 :: b3 :: rest => (b0 * 16777216 + b1 * 65536 + b2 * 256 + b3) :: bytesToWords rest
  | _ => []

/-- Split a byte list into 64-byte blocks; the fuel argument is the list length. -/
def chunksAux : Nat → List Nat → List (List Nat)
  | 0, _ => []
  | _, [] => []
  | fuel + 1, xs => xs.take 64 :: chunksAux fuel (xs.drop 64)

/-- Big-endian bytes of a 32-bit word. -/
def wordBytes (w : Nat) : List Nat := [(w >>> 24) % 256, (w >>> 16) % 256, (w >>> 8) % 256, w % 256]

/-- SHA-256 padding: a 0x80 byte, zeros to 56 mod 64, then the 64-bit bit length. -/
def shaPad (msg : List Nat) : List Nat :=
  let len := msg.length
  let bitLen := 8 * len
  msg ++ [0x80] ++ List.replicate ((119 - len % 64) % 64) 0 ++
    [(bitLen >>> 56) % 256, (bitLen >>> 48) % 256, (bitLen >>> 40) % 256, (bitLen >>> 32) % 256,
     (bitLen >>> 24) % 256, (bitLen >>> 16) % 256, (bitLen >>> 8) % 256, bitLen % 256]

/-- SHA-256 of a byte string, as 32 digest bytes. -/
def sha256 (msg : List Nat) : List Nat :=
  let padded := shaPad msg
  let blocks := chunksAux padded.length padded
  let fin := blocks.foldl (fun st blk => compressBlock st (extendSchedule (bytesToWords blk) 48)) shaH0
  wordBytes fin.a ++ wordBytes fin.b ++ wordBytes fin.c ++ wordBytes fin.d ++
    wordBytes fin.e ++ wordBytes fin.f ++ wordBytes fin.g ++ wordBytes fin.h

/-- Lowercase hex digit. -/
def hexDigitChar (n : Nat) : Char := "0123456789abcdef".data.getD n '0'

/-- Lowercase hex rendering of a byte string (Python `hexdigest`). -/
def bytesToHexChars : List Nat → List Char
  | [] => []
  | b :: rest => hexDigitChar (b / 16) :: hexDigitChar (b % 16) :: bytesToHexChars rest

/-- Lowercase hex rendering as a `String`. -/
def hexStr (bs : List Nat) : String := String.mk (bytesToHexChars bs)

/-- UTF-8 encoding of one character (Python `str.encode` on one code point). -/
def utf8EncodeChar (c : Char) : List Nat :=
  let n := c.toNat
  if n < 128 then [n]
  else if n < 2048 then [192 + n / 64, 128 + n % 64]
  else if n < 65536 then [224 + n / 4096, 128 + (n / 64) % 64, 128 + n % 64]
  else [240 + n / 262144, 128 + (n / 4096) % 64, 128 + (n / 64) % 64, 128 + n % 64]

/-- UTF-8 encoding of a string (Python `s.encode("utf-8")`). -/
def utf8Bytes (s : String) : List Nat := s.data.flatMap utf8EncodeChar

/-- HMAC-SHA256 (`hmac.new(key, msg, hashlib.sha256).digest()`): keys longer than
the 64-byte block are hashed first, then zero-padded; digest of outer pad around
digest of inner pad around the message. -/
def hmacSha256 (key msg : List Nat) : List Nat :=
  let k0 := if key.length > 64 then sha256 key else key
  let kp := k0 ++ List.replicate (64 - k0.length) 0
  sha256 ((kp.map (fun b => b ^^^ 0x5c)) ++ sha256 ((kp.map (fun b => b ^^^ 0x36)) ++ msg))

/-! ### Query-string parsing (`urllib.parse.parse_qs(init_data, keep_blank_values=True)`) -/

/-- Value of one hex digit, if the character is one (both cases accepted). -/
def hexVal (c : Char) : Option Nat :=
  if '0' ≤ c ∧ c ≤ '9' then some (c.toNat - 48)
  else if 'a' ≤ c ∧ c ≤ 'f' then some (c.toNat - 87)
  else if 'A' ≤ c ∧ c ≤ 'F' then some (c.toNat - 55)
  else none

/-- Is a byte a UTF-8 continuation byte. -/
def isCont (b : Nat) : Bool := 128 ≤ b && b < 192

/-- Allowed range of the first continuation byte of a 3-byte sequence
(surrogates and overlong encodings are invalid, as in CPython). -/
def ok3First (b c1 : Nat) : Bool :=
  (if b = 224 then 160 else 128) ≤ c1 && c1 ≤ (if b = 237 then 159 else 191)

/-- Allowed range of the first continuation byte of a 4-byte sequence. -/
def ok4First (b c1 : Nat) : Bool :=
  (if b = 240 then 144 else 128) ≤ c1 && c1 ≤ (if b = 244 then 143 else 191)

/-- The replacement character emitted by the `errors="replace"` handler. -/
def fffd : Char := Char.ofNat 0xfffd

/-- Decode one UTF-8 sequence starting at lead byte `b`: the decoded character
(replacement on error) and how many bytes beyond the lead were consumed
(maximal-subpart policy, as CPython). -/
def utf8Step (b : Nat) (rest : List Nat) : Char × Nat :=
  if b < 128 then (Char.ofNat b, 0)
  else if 194 ≤ b && b ≤ 223 then
    match rest with
    | c1 :: _ => if isCont c1 then (Char.ofNat ((b - 192) * 64 + (c1 - 128)), 1) else (fffd, 0)
    | [] => (fffd, 0)
  else if 224 ≤ b && b ≤ 239 then
    match rest with
    | c1 :: c2 :: _ =>
      if ok3First b c1 then
        if isCont c2 then (Char.ofNat ((b - 224) * 4096 + (c1 - 128) * 64 + (c2 - 128)), 2)
        else (fffd, 1)
      else (fffd, 0)
    | [c1] => if ok3First b c1 then (fffd, 1) else (fffd, 0)
    | [] => (fffd, 0)
  else if 240 ≤ b && b ≤ 244 then
    match rest with
    | c1 :: c2 :: c3 :: _ =>
      if ok4First b c1 then
        if isCont c2 then
          if isCont c3 then
            (Char.ofNat ((b - 240) * 262144 + (c1 - 128) * 4096 + (c2 - 128) * 64 + (c3 - 128)), 3)
          else (fffd, 2)
        else (fffd, 1)
      else (fffd, 0)
    | [c1, c2] => if ok4First b c1 then (if isCont c2 then (fffd, 2) else (fffd, 1)) else (fffd, 0)
    | [c1] => if ok4First b c1 then (fffd, 1) else (fffd, 0)
    | [] => (fffd, 0)
  else (fffd, 0)

/-- Fuel-indexed UTF-8 decoding with replacement; the fuel is the byte count. -/
def utf8DecodeAux : Nat → List Nat → List Char
  | 0, _ => []
  | _, [] => []
  | fuel + 1, b :: rest =>
    let s := utf8Step b rest
    s.1 :: utf8DecodeAux fuel (rest.drop s.2)

/-- Decode a byte string as UTF-8 with U+FFFD replacement (Python
`bytes.decode("utf-8", errors="replace")`). -/
def utf8DecodeReplace (bs : List Nat) : List Char := utf8DecodeAux bs.length bs

/-- Scan for percent escapes: a `%` followed by two hex digits becomes a byte
token, anything else stays a literal character token. -/
def pctTokens : List Char → List (Char ⊕ Nat)
  | [] => []
  | '%' :: c1 :: c2 :: rest =>
    match hexVal c1, hexVal c2 with
    | some h1, some h2 => Sum.inr (16 * h1 + h2) :: pctTokens rest
    | _, _ => Sum.inl '%' :: pctTokens (c1 :: c2 :: rest)
  | c :: rest => Sum.inl c :: pctTokens rest

/-- Bytes of a token stream: literal characters are UTF-8 encoded, escape bytes
pass through. -/
def tokenBytes (ts : List (Char ⊕ Nat)) : List Nat :=
  ts.flatMap fun t => match t with | Sum.inl c => utf8EncodeChar c | Sum.inr b => [b]

/-- Python `urllib.parse.unquote` with the default `utf-8`/`replace` handling:
percent escapes decode to bytes, byte runs decode as UTF-8 with replacement,
unescaped characters pass through. -/
def unquote (cs : List Char) : List Char := utf8DecodeReplace (tokenBytes (pctTokens cs))

/-- Replace `+` by a space, applied by `parse_qsl` before unquoting. -/
def plusSpace (cs : List Char) : List Char := cs.map fun c => if c = '+' then ' ' else c

/-- Split on `&` separators (Python `qs.split("&")`). -/
def splitAmp : List Char → List (List Char)
  | [] => [[]]
  | '&' :: rest => [] :: splitAmp rest
  | c :: rest =>
    match splitAmp rest with
    | [] => [[c]]
    | g :: gs => (c :: g) :: gs

/-- Split a chunk at the first `=` (Python `name_value.split("=", 1)`); `none`
when there is no `=`. -/
def splitFirstEq : List Char → List Char × Option (List Char)
  | [] => ([], none)
  | '=' :: rest => ([], some rest)
  | c :: rest =>
    let p := splitFirstEq rest
    (c :: p.1, p.2)

/-- Python `parse_qsl(init_data, keep_blank_values=True)`: split on `&`, skip
empty chunks, a chunk without `=` keeps a blank value, then `+`-to-space and
unquote both name and value. -/
def parse_qsl (qs : String) : List (String × String) :=
  (splitAmp qs.data).filterMap fun chunk =>
    match chunk with
    | [] => none
    | _ =>
      let p := splitFirstEq chunk
      some (String.mk (unquote (plusSpace p.1)), String.mk (unquote (plusSpace (p.2.getD []))))

/-- First value listed under a key (`parsed.get(key, [None])[0]` on the
`parse_qs` dictionary, whose value lists are in occurrence order). -/
def qsFirst (pairs : List (String × String)) (k : String) : Option String :=
  (pairs.find? fun p => p.1 == k).map Prod.snd

/-- Deduplication pass with the set of already-seen keys. -/
def dedupKeysAux (seen : List String) : List String → List String
  | [] => []
  | k :: rest =>
    if seen.elem k then dedupKeysAux seen rest else k :: dedupKeysAux (k :: seen) rest

/-- The distinct keys of the parsed dictionary, in first-occurrence order. -/
def dedupKeys (l : List String) : List String := dedupKeysAux [] l

/-- Strict lexicographic comparison of character lists by code point, the
ordering Python `sorted` uses on `str`. -/
def charListLtB : List Char → List Char → Bool
  | [], [] => false
  | [], _ :: _ => true
  | _ :: _, [] => false
  | a :: as, b :: bs => if a < b then true else if b < a then false else charListLtB as bs

/-- Non-strict string comparison derived from `charListLtB`. -/
def strLeB (a b : String) : Bool := !(charListLtB b.data a.data)

/-- Insert into a sorted list (stable: goes before equal elements). -/
def insertSorted (le : α → α → Bool) (a : α) : List α → List α
  | [] => [a]
  | b :: bs => if le a b then a :: b :: bs else b :: insertSorted le a bs

/-- Stable insertion sort, an extensional model of Python `sorted`. -/
def isort (le : α → α → Bool) : List α → List α
  | [] => []
  | a :: as => insertSorted le a (isort le as)

/-- Python `sorted(parsed.keys())`. -/
def sortedKeys (pairs : List (String × String)) : List String :=
  isort strLeB (dedupKeys (pairs.map Prod.fst))

/-- Python `"\n".join(arr)`. -/
def joinNl : List String → String
  | [] => ""
  | [s] => s
  | s :: rest => s ++ "\n" ++ joinNl rest

/-- The data-check string of `validate_init_data`: all keys except `hash` in
sorted order, rendered `key=value` with the first value of each key, joined by
newlines. -/
def data_check_string (pairs : List (String × String)) : String :=
  joinNl (((sortedKeys pairs).filter fun k => k != "hash").map
    fun k => k ++ "=" ++ (qsFirst pairs k).getD "")

/-! ### Python `int(...)` on strings, as used on `auth_date` -/

/-- Code points of the characters Python `int` strips around a numeral
(measured against CPython: the Unicode whitespace characters except the
four ASCII information separators). -/
def intStripCps : List Nat :=
  [9, 10, 11, 12, 13, 32, 133, 160, 5760, 8192, 8193, 8194, 8195, 8196, 8197, 8198, 8199, 8200, 8201, 8202, 8232, 8233, 8239, 8287, 12288]

/-- First code point of each run of ten Unicode decimal digits (category Nd,
digit values 0 through 9 in code-point order), extracted from the Unicode
database of CPython; Python `int` accepts exactly these digit characters. -/
def decimalRunStarts : List Nat :=
  [48, 1632, 1776, 1984, 2406, 2534, 2662, 2790,
   2918, 3046, 3174, 3302, 3430, 3558, 3664, 3792,
   3872, 4160, 4240, 6112, 6160, 6470, 6608, 6784,
   6800, 6992, 7088, 7232, 7248, 42528, 43216, 43264,
   43472, 43504, 43600, 44016, 65296, 66720, 68912, 69734,
   69872, 69942, 70096, 70384, 70736, 70864, 71248, 71360,
   71472, 71904, 72016, 72784, 73040, 73120, 92768, 92864,
   93008, 120782, 120792, 120802, 120812, 120822, 123200, 123632,
   125264, 130032]

/-- Digit value of a character accepted by Python `int` (each run maps its ten
code points to 0 through 9). -/
def pyDigitVal (c : Char) : Option Nat :=
  decimalRunStarts.findSome? fun s =>
    if s ≤ c.toNat && c.toNat < s + 10 then some (c.toNat - s) else none

/-- Is this one of the characters `int` strips. -/
def isIntStripChar (c : Char) : Bool := intStripCps.contains c.toNat

/-- Strip the surrounding whitespace `int` ignores. -/
def stripWs (cs : List Char) : List Char :=
  ((cs.dropWhile isIntStripChar).reverse.dropWhile isIntStripChar).reverse

/-- Digits with optional single underscores between digits, continuing an
already-seen digit with accumulator `acc`. -/
def parseDigitsUnd : Nat → List Char → Option Nat
  | acc, [] => some acc
  | acc, '_' :: c :: rest =>
    match pyDigitVal c with
    | some d => parseDigitsUnd (acc * 10 + d) rest
    | none => none
  | acc, c :: rest =>
    match pyDigitVal c with
    | some d => parseDigitsUnd (acc * 10 + d) rest
    | none => none

/-- A non-empty digit body (first character must be a digit). -/
def pyIntOfDigits : List Char → Option Nat
  | [] => none
  | c :: rest =>
    match pyDigitVal c with
    | some d => parseDigitsUnd d rest
    | none => none

/-- Python `int(s)` for decimal strings: surrounding whitespace, an optional
ASCII sign, then Unicode decimal digits with underscore separators; `none`
models `ValueError`. -/
def pyInt (s : String) : Option Int :=
  match stripWs s.data with
  | '+' :: body => (pyIntOfDigits body).map Int.ofNat
  | '-' :: body => (pyIntOfDigits body).map fun n => -(Int.ofNat n)
  | body => (pyIntOfDigits body).map Int.ofNat

/-! ### `TelegramAuthService.validate_init_data` -/

/-- Python truthiness of an optional string: `None` and `""` are falsy. -/
def pyTruthyOptStr : Option String → Bool
  | none => false
  | some s => s != ""

def missingHashMsg : String := "Missing hash in initData"
def invalidHashMsg : String := "Invalid hash - data may have been tampered with"
def invalidAuthDateMsg : String := "Invalid auth_date format"

/-- Only `ValueError` and `TypeError` are caught around the `auth_date`
parse; everything else escapes to the outer handler, which stringifies the
exception behind the `Validation error:` marker. The timestamp-conversion
overflow surfaces this way. -/
def overflowValidationMsg : String :=
  "Validation error: timestamp out of range for platform time_t"

/-- The message of the `OSError` raised when `localtime` cannot represent the
year, stringified by the outer handler. -/
def localtimeValidationMsg : String :=
  "Validation error: [Errno 75] Value too large for defined data type"

/-- The message of the `TypeError` raised by `hmac.compare_digest` on a
non-ASCII string, stringified by the outer handler. -/
def compareDigestValidationMsg : String :=
  "Validation error: comparing strings with non-ASCII characters is not supported"

/-- Is every character ASCII (`str.isascii`, the precondition of
`hmac.compare_digest` on strings). -/
def isAsciiStr (s : String) : Bool := s.data.all fun c => c.toNat < 128

/-- Behavior bands of `datetime.fromtimestamp` on integral timestamps,
measured against the target platform (CPython on 64-bit Linux with glibc,
TZ=UTC, the container default): outside `time_t` the conversion raises
OverflowError; where `localtime` cannot represent the year it raises OSError;
outside the `datetime` year range 1..9999 the constructor raises ValueError,
which the inner handler treats as a malformed date. -/
def timeTMin : Int := -9223372036854775808

def timeTMax : Int := 9223372036854775807

def localtimeOkMin : Int := -67768040609740800

def localtimeOkMax : Int := 67768036191676799

def fromtimestampOkMin : Int := -62135510400

def fromtimestampOkMax : Int := 253402300799

/-- The expiry message; with integral times `timedelta.total_seconds()` renders
with a trailing `.0`. -/
def expiredMsg (age maxAge : Int) : String :=
  "initData expired (age: " ++ toString age ++ ".0s, max: " ++ toString maxAge ++ "s)"

/-- The secondary key: HMAC-SHA256 keyed by the literal `WebAppData` over the
bot token (`TelegramAuthService._compute_secret_key`). -/
def _compute_secret_key (bot_token : String) : List Nat :=
  hmacSha256 (utf8Bytes "WebAppData") (utf8Bytes bot_token)

/-- The computed signature: HMAC-SHA256 of the data-check string under the
secondary key, rendered as lowercase hex. -/
def computedHash (bot_token : String) (pairs : List (String × String)) : String :=
  hexStr (hmacSha256 (_compute_secret_key bot_token) (utf8Bytes (data_check_string pairs)))

/-- The freshness phase of `validate_init_data`, reached once the signature
matched: skip when `auth_date` is falsy (absent or blank), otherwise parse it
as an integer (`ValueError` is the malformed-date failure), convert it with
`datetime.fromtimestamp` (whose range errors either count as malformed or
escape to the outer handler), and compare the age against the window.
`datetime` arithmetic is modelled in epoch seconds with `now` supplied
explicitly. -/
def authDateCheck (pairs : List (String × String)) (now max_age_seconds : Int) :
    Bool × Option String :=
  let ads := qsFirst pairs "auth_date"
  if pyTruthyOptStr ads then
    match pyInt (ads.getD "") with
    | none => (false, some invalidAuthDateMsg)
    | some ts =>
      if ts < timeTMin ∨ timeTMax < ts then (false, some overflowValidationMsg)
      else if ts < localtimeOkMin ∨ localtimeOkMax < ts then
        (false, some localtimeValidationMsg)
      else if ts < fromtimestampOkMin ∨ fromtimestampOkMax < ts then
        (false, some invalidAuthDateMsg)
      else if now - ts > max_age_seconds then
        (false, some (expiredMsg (now - ts) max_age_seconds))
      else (true, none)
  else (true, none)

/-- `TelegramAuthService.validate_init_data`: parse the query string, require
a truthy `hash`, compare it against the computed signature with
`hmac.compare_digest` (which raises `TypeError` on a non-ASCII string — the
computed hex is always ASCII — caught by the outer handler), then run the
freshness phase. -/
def validate_init_data (bot_token : String) (now : Int) (init_data : String)
    (max_age_seconds : Int) : Bool × Option String :=
  let parsed := parse_qsl init_data
  let received_hash := qsFirst parsed "hash"
  if !(pyTruthyOptStr received_hash) then (false, some missingHashMsg)
  else if !(isAsciiStr (received_hash.getD "")) then
    (false, some compareDigestValidationMsg)
  else if computedHash bot_token parsed != received_hash.getD "" then
    (false, some invalidHashMsg)
  else authDateCheck parsed now max_age_seconds

/-! ### Spec-side definitions, written from the wording of the specification -/

/-- Last value listed under a key: the mapping the spec prescribes in its
parsing step (last occurrence wins). -/
def qsLast (pairs : List (String × String)) (k : String) : Option String :=
  ((pairs.filter fun p => p.1 == k).map Prod.snd).getLast?

/-- The check-string a last-occurrence-wins mapping would produce. -/
def data_check_string_lastwins (pairs : List (String × String)) : String :=
  joinNl (((sortedKeys pairs).filter fun k => k != "hash").map
    fun k => k ++ "=" ++ (qsLast pairs k).getD "")

/-! ### Data model (`app/models/user.py`, `app/models/friendship.py`) -/

/-- Identity claim extracted from the payload (`TelegramUser` dataclass). -/
structure TelegramUser where
  id : Int
  first_name : String
  last_name : Option String
  username : Option String
  language_code : String
  is_premium : Bool
  photo_url : Option String
deriving DecidableEq, Repr

/-- A row of the `users` table. Timestamps are epoch seconds. -/
structure User where
  id : Nat
  telegram_id : Int
  username : Option String
  first_name : String
  last_name : Option String
  photo_url : Option String
  language_code : String
  is_premium : Bool
  level : Nat
  watts : Int
  referral_code : String
  referred_by_id : Option Nat
  created_at : Int
  last_login_at : Int
deriving DecidableEq, Repr

/-- A row of the `friendships` table. -/
structure Friendship where
  user_id : Nat
  friend_id : Nat
  source : String
  created_at : Int
deriving DecidableEq, Repr

/-- The persisted state: both tables plus the autoincrement counter. -/
structure DB where
  users : List User
  friendships : List Friendship
  nextId : Nat
deriving DecidableEq, Repr

/-- `settings.referral_bonus_watts` (configured default). -/
def referral_bonus_watts : Int := 5000

/-- `settings.referral_code_length` (configured default). -/
def referral_code_length : Nat := 8

/-- `User.display_name`: the first truthy one of handle, first name, or the
`User_<id>` fallback. -/
def display_name (u : User) : String :=
  if pyTruthyOptStr u.username then u.username.getD ""
  else if u.first_name != "" then u.first_name
  else "User_" ++ toString u.telegram_id

/-- The referral-code alphabet: uppercase letters and digits with the
look-alike characters 0, O, I, L, 1 removed. -/
def referralAlphabet : List Char := "ABCDEFGHJKMNPQRSTUVWXYZ23456789".data

/-- `User.generate_referral_code`: draw `length` characters from the alphabet.
The secure random source is abstracted as the index stream `pick` (reduced
modulo the alphabet size, so any stream stays inside the alphabet). -/
def generate_referral_code (length : Nat) (pick : Nat → Nat) : String :=
  String.mk ((List.range length).map fun i => referralAlphabet.getD (pick i % 31) 'A')

/-! ### `app/services/user_service.py` -/

/-- `UserService.get_by_telegram_id`. -/
def get_by_telegram_id (db : DB) (telegram_id : Int) : Option User :=
  db.users.find? fun u => u.telegram_id == telegram_id

set_option maxHeartbeats 2000000 in
/-- Uppercase mappings of every non-ASCII code point that Python `str.upper`
changes, extracted from the Unicode database of CPython (full case mapping,
so one code point may map to several, as in the sharp s). -/
def upperTable : List (Nat × List Nat) :=
  [(181, [924]), (223, [83, 83]), (224, [192]), (225, [193]), (226, [194]), (227, [195]), 
   (228, [196]), (229, [197]), (230, [198]), (231, [199]), (232, [200]), (233, [201]), 
   (234, [202]), (235, [203]), (236, [204]), (237, [205]), (238, [206]), (239, [207]), 
   (240, [208]), (241, [209]), (242, [210]), (243, [211]), (244, [212]), (245, [213]), 
   (246, [214]), (248, [216]), (249, [217]), (250, [218]), (251, [219]), (252, [220]), 
   (253, [221]), (254, [222]), (255, [376]), (257, [256]), (259, [258]), (261, [260]), 
   (263, [262]), (265, [264]), (267, [266]), (269, [268]), (271, [270]), (273, [272]), 
   (275, [274]), (277, [276]), (279, [278]), (281, [280]), (283, [282]), (285, [284]), 
   (287, [286]), (289, [288]), (291, [290]), (293, [292]), (295, [294]), (297, [296]), 
   (299, [298]), (301, [300]), (303, [302]), (305, [73]), (307, [306]), (309, [308]), (311, [310]), 
   (314, [313]), (316, [315]), (318, [317]), (320, [319]), (322, [321]), (324, [323]), 
   (326, [325]), (328, [327]), (329, [700, 78]), (331, [330]), (333, [332]), (335, [334]), 
   (337, [336]), (339, [338]), (341, [340]), (343, [342]), (345, [344]), (347, [346]), 
   (349, [348]), (351, [350]), (353, [352]), (355, [354]), (357, [356]), (359, [358]), 
   (361, [360]), (363, [362]), (365, [364]), (367, [366]), (369, [368]), (371, [370]), 
   (373, [372]), (375, [374]), (378, [377]), (380, [379]), (382, [381]), (383, [83]), (384, [579]), 
   (387, [386]), (389, [388]), (392, [391]), (396, [395]), (402, [401]), (405, [502]), 
   (409, [408]), (410, [573]), (414, [544]), (417, [416]), (419, [418]), (421, [420]), 
   (424, [423]), (429, [428]), (432, [431]), (436, [435]), (438, [437]), (441, [440]), 
   (445, [444]), (447, [503]), (453, [452]), (454, [452]), (456, [455]), (457, [455]), 
   (459, [458]), (460, [458]), (462, [461]), (464, [463]), (466, [465]), (468, [467]), 
   (470, [469]), (472, [471]), (474, [473]), (476, [475]), (477, [398]), (479, [478]), 
   (481, [480]), (483, [482]), (485, [484]), (487, [486]), (489, [488]), (491, [490]), 
   (493, [492]), (495, [494]), (496, [74, 780]), (498, [497]), (499, [497]), (501, [500]), 
   (505, [504]), (507, [506]), (509, [508]), (511, [510]), (513, [512]), (515, [514]), 
   (517, [516]), (519, [518]), (521, [520]), (523, [522]), (525, [524]), (527, [526]), 
   (529, [528]), (531, [530]), (533, [532]), (535, [534]), (537, [536]), (539, [538]), 
   (541, [540]), (543, [542]), (547, [546]), (549, [548]), (551, [550]), (553, [552]), 
   (555, [554]), (557, [556]), (559, [558]), (561, [560]), (563, [562]), (572, [571]), 
   (575, [11390]), (576, [11391]), (578, [577]), (583, [582]), (585, [584]), (587, [586]), 
   (589, [588]), (591, [590]), (592, [11375]), (593, [11373]), (594, [11376]), (595, [385]), 
   (596, [390]), (598, [393]), (599, [394]), (601, [399]), (603, [400]), (604, [42923]), 
   (608, [403]), (609, [42924]), (611, [404]), (613, [42893]), (614, [42922]), (616, [407]), 
   (617, [406]), (618, [42926]), (619, [11362]), (620, [42925]), (623, [412]), (625, [11374]), 
   (626, [413]), (629, [415]), (637, [11364]), (640, [422]), (642, [42949]), (643, [425]), 
   (647, [42929]), (648, [430]), (649, [580]), (650, [433]), (651, [434]), (652, [581]), 
   (658, [439]), (669, [42930]), (670, [42928]), (837, [921]), (881, [880]), (883, [882]), 
   (887, [886]), (891, [1021]), (892, [1022]), (893, [1023]), (912, [921, 776, 769]), (940, [902]), 
   (941, [904]), (942, [905]), (943, [906]), (944, [933, 776, 769]), (945, [913]), (946, [914]), 
   (947, [915]), (948, [916]), (949, [917]), (950, [918]), (951, [919]), (952, [920]), 
   (953, [921]), (954, [922]), (955, [923]), (956, [924]), (957, [925]), (958, [926]), 
   (959, [927]), (960, [928]), (961, [929]), (962, [931]), (963, [931]), (964, [932]), 
   (965, [933]), (966, [934]), (967, [935]), (968, [936]), (969, [937]), (970, [938]), 
   (971, [939]), (972, [908]), (973, [910]), (974, [911]), (976, [914]), (977, [920]), 
   (981, [934]), (982, [928]), (983, [975]), (985, [984]), (987, [986]), (989, [988]), 
   (991, [990]), (993, [992]), (995, [994]), (997, [996]), (999, [998]), (1001, [1000]), 
   (1003, [1002]), (1005, [1004]), (1007, [1006]), (1008, [922]), (1009, [929]), (1010, [1017]), 
   (1011, [895]), (1013, [917]), (1016, [1015]), (1019, [1018]), (1072, [1040]), (1073, [1041]), 
   (1074, [1042]), (1075, [1043]), (1076, [1044]), (1077, [1045]), (1078, [1046]), (1079, [1047]), 
   (1080, [1048]), (1081, [1049]), (1082, [1050]), (1083, [1051]), (1084, [1052]), (1085, [1053]), 
   (1086, [1054]), (1087, [1055]), (1088, [1056]), (1089, [1057]), (1090, [1058]), (1091, [1059]), 
   (1092, [1060]), (1093, [1061]), (1094, [1062]), (1095, [1063]), (1096, [1064]), (1097, [1065]), 
   (1098, [1066]), (1099, [1067]), (1100, [1068]), (1101, [1069]), (1102, [1070]), (1103, [1071]), 
   (1104, [1024]), (1105, [1025]), (1106, [1026]), (1107, [1027]), (1108, [1028]), (1109, [1029]), 
   (1110, [1030]), (1111, [1031]), (1112, [1032]), (1113, [1033]), (1114, [1034]), (1115, [1035]), 
   (1116, [1036]), (1117, [1037]), (1118, [1038]), (1119, [1039]), (1121, [1120]), (1123, [1122]), 
   (1125, [1124]), (1127, [1126]), (1129, [1128]), (1131, [1130]), (1133, [1132]), (1135, [1134]), 
   (1137, [1136]), (1139, [1138]), (1141, [1140]), (1143, [1142]), (1145, [1144]), (1147, [1146]), 
   (1149, [1148]), (1151, [1150]), (1153, [1152]), (1163, [1162]), (1165, [1164]), (1167, [1166]), 
   (1169, [1168]), (1171, [1170]), (1173, [1172]), (1175, [1174]), (1177, [1176]), (1179, [1178]), 
   (1181, [1180]), (1183, [1182]), (1185, [1184]), (1187, [1186]), (1189, [1188]), (1191, [1190]), 
   (1193, [1192]), (1195, [1194]), (1197, [1196]), (1199, [1198]), (1201, [1200]), (1203, [1202]), 
   (1205, [1204]), (1207, [1206]), (1209, [1208]), (1211, [1210]), (1213, [1212]), (1215, [1214]), 
   (1218, [1217]), (1220, [1219]), (1222, [1221]), (1224, [1223]), (1226, [1225]), (1228, [1227]), 
   (1230, [1229]), (1231, [1216]), (1233, [1232]), (1235, [1234]), (1237, [1236]), (1239, [1238]), 
   (1241, [1240]), (1243, [1242]), (1245, [1244]), (1247, [1246]), (1249, [1248]), (1251, [1250]), 
   (1253, [1252]), (1255, [1254]), (1257, [1256]), (1259, [1258]), (1261, [1260]), (1263, [1262]), 
   (1265, [1264]), (1267, [1266]), (1269, [1268]), (1271, [1270]), (1273, [1272]), (1275, [1274]), 
   (1277, [1276]), (1279, [1278]), (1281, [1280]), (1283, [1282]), (1285, [1284]), (1287, [1286]), 
   (1289, [1288]), (1291, [1290]), (1293, [1292]), (1295, [1294]), (1297, [1296]), (1299, [1298]), 
   (1301, [1300]), (1303, [1302]), (1305, [1304]), (1307, [1306]), (1309, [1308]), (1311, [1310]), 
   (1313, [1312]), (1315, [1314]), (1317, [1316]), (1319, [1318]), (1321, [1320]), (1323, [1322]), 
   (1325, [1324]), (1327, [1326]), (1377, [1329]), (1378, [1330]), (1379, [1331]), (1380, [1332]), 
   (1381, [1333]), (1382, [1334]), (1383, [1335]), (1384, [1336]), (1385, [1337]), (1386, [1338]), 
   (1387, [1339]), (1388, [1340]), (1389, [1341]), (1390, [1342]), (1391, [1343]), (1392, [1344]), 
   (1393, [1345]), (1394, [1346]), (1395, [1347]), (1396, [1348]), (1397, [1349]), (1398, [1350]), 
   (1399, [1351]), (1400, [1352]), (1401, [1353]), (1402, [1354]), (1403, [1355]), (1404, [1356]), 
   (1405, [1357]), (1406, [1358]), (1407, [1359]), (1408, [1360]), (1409, [1361]), (1410, [1362]), 
   (1411, [1363]), (1412, [1364]), (1413, [1365]), (1414, [1366]), (1415, [1333, 1362]), 
   (4304, [7312]), (4305, [7313]), (4306, [7314]), (4307, [7315]), (4308, [7316]), (4309, [7317]), 
   (4310, [7318]), (4311, [7319]), (4312, [7320]), (4313, [7321]), (4314, [7322]), (4315, [7323]), 
   (4316, [7324]), (4317, [7325]), (4318, [7326]), (4319, [7327]), (4320, [7328]), (4321, [7329]), 
   (4322, [7330]), (4323, [7331]), (4324, [7332]), (4325, [7333]), (4326, [7334]), (4327, [7335]), 
   (4328, [7336]), (4329, [7337]), (4330, [7338]), (4331, [7339]), (4332, [7340]), (4333, [7341]), 
   (4334, [7342]), (4335, [7343]), (4336, [7344]), (4337, [7345]), (4338, [7346]), (4339, [7347]), 
   (4340, [7348]), (4341, [7349]), (4342, [7350]), (4343, [7351]), (4344, [7352]), (4345, [7353]), 
   (4346, [7354]), (4349, [7357]), (4350, [7358]), (4351, [7359]), (5112, [5104]), (5113, [5105]), 
   (5114, [5106]), (5115, [5107]), (5116, [5108]), (5117, [5109]), (7296, [1042]), (7297, [1044]), 
   (7298, [1054]), (7299, [1057]), (7300, [1058]), (7301, [1058]), (7302, [1066]), (7303, [1122]), 
   (7304, [42570]), (7545, [42877]), (7549, [11363]), (7566, [42950]), (7681, [7680]), 
   (7683, [7682]), (7685, [7684]), (7687, [7686]), (7689, [7688]), (7691, [7690]), (7693, [7692]), 
   (7695, [7694]), (7697, [7696]), (7699, [7698]), (7701, [7700]), (7703, [7702]), (7705, [7704]), 
   (7707, [7706]), (7709, [7708]), (7711, [7710]), (7713, [7712]), (7715, [7714]), (7717, [7716]), 
   (7719, [7718]), (7721, [7720]), (7723, [7722]), (7725, [7724]), (7727, [7726]), (7729, [7728]), 
   (7731, [7730]), (7733, [7732]), (7735, [7734]), (7737, [7736]), (7739, [7738]), (7741, [7740]), 
   (7743, [7742]), (7745, [7744]), (7747, [7746]), (7749, [7748]), (7751, [7750]), (7753, [7752]), 
   (7755, [7754]), (7757, [7756]), (7759, [7758]), (7761, [7760]), (7763, [7762]), (7765, [7764]), 
   (7767, [7766]), (7769, [7768]), (7771, [7770]), (7773, [7772]), (7775, [7774]), (7777, [7776]), 
   (7779, [7778]), (7781, [7780]), (7783, [7782]), (7785, [7784]), (7787, [7786]), (7789, [7788]), 
   (7791, [7790]), (7793, [7792]), (7795, [7794]), (7797, [7796]), (7799, [7798]), (7801, [7800]), 
   (7803, [7802]), (7805, [7804]), (7807, [7806]), (7809, [7808]), (7811, [7810]), (7813, [7812]), 
   (7815, [7814]), (7817, [7816]), (7819, [7818]), (7821, [7820]), (7823, [7822]), (7825, [7824]), 
   (7827, [7826]), (7829, [7828]), (7830, [72, 817]), (7831, [84, 776]), (7832, [87, 778]), 
   (7833, [89, 778]), (7834, [65, 702]), (7835, [7776]), (7841, [7840]), (7843, [7842]), 
   (7845, [7844]), (7847, [7846]), (7849, [7848]), (7851, [7850]), (7853, [7852]), (7855, [7854]), 
   (7857, [7856]), (7859, [7858]), (7861, [7860]), (7863, [7862]), (7865, [7864]), (7867, [7866]), 
   (7869, [7868]), (7871, [7870]), (7873, [7872]), (7875, [7874]), (7877, [7876]), (7879, [7878]), 
   (7881, [7880]), (7883, [7882]), (7885, [7884]), (7887, [7886]), (7889, [7888]), (7891, [7890]), 
   (7893, [7892]), (7895, [7894]), (7897, [7896]), (7899, [7898]), (7901, [7900]), (7903, [7902]), 
   (7905, [7904]), (7907, [7906]), (7909, [7908]), (7911, [7910]), (7913, [7912]), (7915, [7914]), 
   (7917, [7916]), (7919, [7918]), (7921, [7920]), (7923, [7922]), (7925, [7924]), (7927, [7926]), 
   (7929, [7928]), (7931, [7930]), (7933, [7932]), (7935, [7934]), (7936, [7944]), (7937, [7945]), 
   (7938, [7946]), (7939, [7947]), (7940, [7948]), (7941, [7949]), (7942, [7950]), (7943, [7951]), 
   (7952, [7960]), (7953, [7961]), (7954, [7962]), (7955, [7963]), (7956, [7964]), (7957, [7965]), 
   (7968, [7976]), (7969, [7977]), (7970, [7978]), (7971, [7979]), (7972, [7980]), (7973, [7981]), 
   (7974, [7982]), (7975, [7983]), (7984, [7992]), (7985, [7993]), (7986, [7994]), (7987, [7995]), 
   (7988, [7996]), (7989, [7997]), (7990, [7998]), (7991, [7999]), (8000, [8008]), (8001, [8009]), 
   (8002, [8010]), (8003, [8011]), (8004, [8012]), (8005, [8013]), (8016, [933, 787]), 
   (8017, [8025]), (8018, [933, 787, 768]), (8019, [8027]), (8020, [933, 787, 769]), 
   (8021, [8029]), (8022, [933, 787, 834]), (8023, [8031]), (8032, [8040]), (8033, [8041]), 
   (8034, [8042]), (8035, [8043]), (8036, [8044]), (8037, [8045]), (8038, [8046]), (8039, [8047]), 
   (8048, [8122]), (8049, [8123]), (8050, [8136]), (8051, [8137]), (8052, [8138]), (8053, [8139]), 
   (8054, [8154]), (8055, [8155]), (8056, [8184]), (8057, [8185]), (8058, [8170]), (8059, [8171]), 
   (8060, [8186]), (8061, [8187]), (8064, [7944, 921]), (8065, [7945, 921]), (8066, [7946, 921]), 
   (8067, [7947, 921]), (8068, [7948, 921]), (8069, [7949, 921]), (8070, [7950, 921]), 
   (8071, [7951, 921]), (8072, [7944, 921]), (8073, [7945, 921]), (8074, [7946, 921]), 
   (8075, [7947, 921]), (8076, [7948, 921]), (8077, [7949, 921]), (8078, [7950, 921]), 
   (8079, [7951, 921]), (8080, [7976, 921]), (8081, [7977, 921]), (8082, [7978, 921]), 
   (8083, [7979, 921]), (8084, [7980, 921]), (8085, [7981, 921]), (8086, [7982, 921]), 
   (8087, [7983, 921]), (8088, [7976, 921]), (8089, [7977, 921]), (8090, [7978, 921]), 
   (8091, [7979, 921]), (8092, [7980, 921]), (8093, [7981, 921]), (8094, [7982, 921]), 
   (8095, [7983, 921]), (8096, [8040, 921]), (8097, [8041, 921]), (8098, [8042, 921]), 
   (8099, [8043, 921]), (8100, [8044, 921]), (8101, [8045, 921]), (8102, [8046, 921]), 
   (8103, [8047, 921]), (8104, [8040, 921]), (8105, [8041, 921]), (8106, [8042, 921]), 
   (8107, [8043, 921]), (8108, [8044, 921]), (8109, [8045, 921]), (8110, [8046, 921]), 
   (8111, [8047, 921]), (8112, [8120]), (8113, [8121]), (8114, [8122, 921]), (8115, [913, 921]), 
   (8116, [902, 921]), (8118, [913, 834]), (8119, [913, 834, 921]), (8124, [913, 921]), 
   (8126, [921]), (8130, [8138, 921]), (8131, [919, 921]), (8132, [905, 921]), (8134, [919, 834]), 
   (8135, [919, 834, 921]), (8140, [919, 921]), (8144, [8152]), (8145, [8153]), 
   (8146, [921, 776, 768]), (8147, [921, 776, 769]), (8150, [921, 834]), (8151, [921, 776, 834]), 
   (8160, [8168]), (8161, [8169]), (8162, [933, 776, 768]), (8163, [933, 776, 769]), 
   (8164, [929, 787]), (8165, [8172]), (8166, [933, 834]), (8167, [933, 776, 834]), 
   (8178, [8186, 921]), (8179, [937, 921]), (8180, [911, 921]), (8182, [937, 834]), 
   (8183, [937, 834, 921]), (8188, [937, 921]), (8526, [8498]), (8560, [8544]), (8561, [8545]), 
   (8562, [8546]), (8563, [8547]), (8564, [8548]), (8565, [8549]), (8566, [8550]), (8567, [8551]), 
   (8568, [8552]), (8569, [8553]), (8570, [8554]), (8571, [8555]), (8572, [8556]), (8573, [8557]), 
   (8574, [8558]), (8575, [8559]), (8580, [8579]), (9424, [9398]), (9425, [9399]), (9426, [9400]), 
   (9427, [9401]), (9428, [9402]), (9429, [9403]), (9430, [9404]), (9431, [9405]), (9432, [9406]), 
   (9433, [9407]), (9434, [9408]), (9435, [9409]), (9436, [9410]), (9437, [9411]), (9438, [9412]), 
   (9439, [9413]), (9440, [9414]), (9441, [9415]), (9442, [9416]), (9443, [9417]), (9444, [9418]), 
   (9445, [9419]), (9446, [9420]), (9447, [9421]), (9448, [9422]), (9449, [9423]), 
   (11312, [11264]), (11313, [11265]), (11314, [11266]), (11315, [11267]), (11316, [11268]), 
   (11317, [11269]), (11318, [11270]), (11319, [11271]), (11320, [11272]), (11321, [11273]), 
   (11322, [11274]), (11323, [11275]), (11324, [11276]), (11325, [11277]), (11326, [11278]), 
   (11327, [11279]), (11328, [11280]), (11329, [11281]), (11330, [11282]), (11331, [11283]), 
   (11332, [11284]), (11333, [11285]), (11334, [11286]), (11335, [11287]), (11336, [11288]), 
   (11337, [11289]), (11338, [11290]), (11339, [11291]), (11340, [11292]), (11341, [11293]), 
   (11342, [11294]), (11343, [11295]), (11344, [11296]), (11345, [11297]), (11346, [11298]), 
   (11347, [11299]), (11348, [11300]), (11349, [11301]), (11350, [11302]), (11351, [11303]), 
   (11352, [11304]), (11353, [11305]), (11354, [11306]), (11355, [11307]), (11356, [11308]), 
   (11357, [11309]), (11358, [11310]), (11359, [11311]), (11361, [11360]), (11365, [570]), 
   (11366, [574]), (11368, [11367]), (11370, [11369]), (11372, [11371]), (11379, [11378]), 
   (11382, [11381]), (11393, [11392]), (11395, [11394]), (11397, [11396]), (11399, [11398]), 
   (11401, [11400]), (11403, [11402]), (11405, [11404]), (11407, [11406]), (11409, [11408]), 
   (11411, [11410]), (11413, [11412]), (11415, [11414]), (11417, [11416]), (11419, [11418]), 
   (11421, [11420]), (11423, [11422]), (11425, [11424]), (11427, [11426]), (11429, [11428]), 
   (11431, [11430]), (11433, [11432]), (11435, [11434]), (11437, [11436]), (11439, [11438]), 
   (11441, [11440]), (11443, [11442]), (11445, [11444]), (11447, [11446]), (11449, [11448]), 
   (11451, [11450]), (11453, [11452]), (11455, [11454]), (11457, [11456]), (11459, [11458]), 
   (11461, [11460]), (11463, [11462]), (11465, [11464]), (11467, [11466]), (11469, [11468]), 
   (11471, [11470]), (11473, [11472]), (11475, [11474]), (11477, [11476]), (11479, [11478]), 
   (11481, [11480]), (11483, [11482]), (11485, [11484]), (11487, [11486]), (11489, [11488]), 
   (11491, [11490]), (11500, [11499]), (11502, [11501]), (11507, [11506]), (11520, [4256]), 
   (11521, [4257]), (11522, [4258]), (11523, [4259]), (11524, [4260]), (11525, [4261]), 
   (11526, [4262]), (11527, [4263]), (11528, [4264]), (11529, [4265]), (11530, [4266]), 
   (11531, [4267]), (11532, [4268]), (11533, [4269]), (11534, [4270]), (11535, [4271]), 
   (11536, [4272]), (11537, [4273]), (11538, [4274]), (11539, [4275]), (11540, [4276]), 
   (11541, [4277]), (11542, [4278]), (11543, [4279]), (11544, [4280]), (11545, [4281]), 
   (11546, [4282]), (11547, [4283]), (11548, [4284]), (11549, [4285]), (11550, [4286]), 
   (11551, [4287]), (11552, [4288]), (11553, [4289]), (11554, [4290]), (11555, [4291]), 
   (11556, [4292]), (11557, [4293]), (11559, [4295]), (11565, [4301]), (42561, [42560]), 
   (42563, [42562]), (42565, [42564]), (42567, [42566]), (42569, [42568]), (42571, [42570]), 
   (42573, [42572]), (42575, [42574]), (42577, [42576]), (42579, [42578]), (42581, [42580]), 
   (42583, [42582]), (42585, [42584]), (42587, [42586]), (42589, [42588]), (42591, [42590]), 
   (42593, [42592]), (42595, [42594]), (42597, [42596]), (42599, [42598]), (42601, [42600]), 
   (42603, [42602]), (42605, [42604]), (42625, [42624]), (42627, [42626]), (42629, [42628]), 
   (42631, [42630]), (42633, [42632]), (42635, [42634]), (42637, [42636]), (42639, [42638]), 
   (42641, [42640]), (42643, [42642]), (42645, [42644]), (42647, [42646]), (42649, [42648]), 
   (42651, [42650]), (42787, [42786]), (42789, [42788]), (42791, [42790]), (42793, [42792]), 
   (42795, [42794]), (42797, [42796]), (42799, [42798]), (42803, [42802]), (42805, [42804]), 
   (42807, [42806]), (42809, [42808]), (42811, [42810]), (42813, [42812]), (42815, [42814]), 
   (42817, [42816]), (42819, [42818]), (42821, [42820]), (42823, [42822]), (42825, [42824]), 
   (42827, [42826]), (42829, [42828]), (42831, [42830]), (42833, [42832]), (42835, [42834]), 
   (42837, [42836]), (42839, [42838]), (42841, [42840]), (42843, [42842]), (42845, [42844]), 
   (42847, [42846]), (42849, [42848]), (42851, [42850]), (42853, [42852]), (42855, [42854]), 
   (42857, [42856]), (42859, [42858]), (42861, [42860]), (42863, [42862]), (42874, [42873]), 
   (42876, [42875]), (42879, [42878]), (42881, [42880]), (42883, [42882]), (42885, [42884]), 
   (42887, [42886]), (42892, [42891]), (42897, [42896]), (42899, [42898]), (42900, [42948]), 
   (42903, [42902]), (42905, [42904]), (42907, [42906]), (42909, [42908]), (42911, [42910]), 
   (42913, [42912]), (42915, [42914]), (42917, [42916]), (42919, [42918]), (42921, [42920]), 
   (42933, [42932]), (42935, [42934]), (42937, [42936]), (42939, [42938]), (42941, [42940]), 
   (42943, [42942]), (42945, [42944]), (42947, [42946]), (42952, [42951]), (42954, [42953]), 
   (42961, [42960]), (42967, [42966]), (42969, [42968]), (42998, [42997]), (43859, [42931]), 
   (43888, [5024]), (43889, [5025]), (43890, [5026]), (43891, [5027]), (43892, [5028]), 
   (43893, [5029]), (43894, [5030]), (43895, [5031]), (43896, [5032]), (43897, [5033]), 
   (43898, [5034]), (43899, [5035]), (43900, [5036]), (43901, [5037]), (43902, [5038]), 
   (43903, [5039]), (43904, [5040]), (43905, [5041]), (43906, [5042]), (43907, [5043]), 
   (43908, [5044]), (43909, [5045]), (43910, [5046]), (43911, [5047]), (43912, [5048]), 
   (43913, [5049]), (43914, [5050]), (43915, [5051]), (43916, [5052]), (43917, [5053]), 
   (43918, [5054]), (43919, [5055]), (43920, [5056]), (43921, [5057]), (43922, [5058]), 
   (43923, [5059]), (43924, [5060]), (43925, [5061]), (43926, [5062]), (43927, [5063]), 
   (43928, [5064]), (43929, [5065]), (43930, [5066]), (43931, [5067]), (43932, [5068]), 
   (43933, [5069]), (43934, [5070]), (43935, [5071]), (43936, [5072]), (43937, [5073]), 
   (43938, [5074]), (43939, [5075]), (43940, [5076]), (43941, [5077]), (43942, [5078]), 
   (43943, [5079]), (43944, [5080]), (43945, [5081]), (43946, [5082]), (43947, [5083]), 
   (43948, [5084]), (43949, [5085]), (43950, [5086]), (43951, [5087]), (43952, [5088]), 
   (43953, [5089]), (43954, [5090]), (43955, [5091]), (43956, [5092]), (43957, [5093]), 
   (43958, [5094]), (43959, [5095]), (43960, [5096]), (43961, [5097]), (43962, [5098]), 
   (43963, [5099]), (43964, [5100]), (43965, [5101]), (43966, [5102]), (43967, [5103]), 
   (64256, [70, 70]), (64257, [70, 73]), (64258, [70, 76]), (64259, [70, 70, 73]), 
   (64260, [70, 70, 76]), (64261, [83, 84]), (64262, [83, 84]), (64275, [1348, 1350]), 
   (64276, [1348, 1333]), (64277, [1348, 1339]), (64278, [1358, 1350]), (64279, [1348, 1341]), 
   (65345, [65313]), (65346, [65314]), (65347, [65315]), (65348, [65316]), (65349, [65317]), 
   (65350, [65318]), (65351, [65319]), (65352, [65320]), (65353, [65321]), (65354, [65322]), 
   (65355, [65323]), (65356, [65324]), (65357, [65325]), (65358, [65326]), (65359, [65327]), 
   (65360, [65328]), (65361, [65329]), (65362, [65330]), (65363, [65331]), (65364, [65332]), 
   (65365, [65333]), (65366, [65334]), (65367, [65335]), (65368, [65336]), (65369, [65337]), 
   (65370, [65338]), (66600, [66560]), (66601, [66561]), (66602, [66562]), (66603, [66563]), 
   (66604, [66564]), (66605, [66565]), (66606, [66566]), (66607, [66567]), (66608, [66568]), 
   (66609, [66569]), (66610, [66570]), (66611, [66571]), (66612, [66572]), (66613, [66573]), 
   (66614, [66574]), (66615, [66575]), (66616, [66576]), (66617, [66577]), (66618, [66578]), 
   (66619, [66579]), (66620, [66580]), (66621, [66581]), (66622, [66582]), (66623, [66583]), 
   (66624, [66584]), (66625, [66585]), (66626, [66586]), (66627, [66587]), (66628, [66588]), 
   (66629, [66589]), (66630, [66590]), (66631, [66591]), (66632, [66592]), (66633, [66593]), 
   (66634, [66594]), (66635, [66595]), (66636, [66596]), (66637, [66597]), (66638, [66598]), 
   (66639, [66599]), (66776, [66736]), (66777, [66737]), (66778, [66738]), (66779, [66739]), 
   (66780, [66740]), (66781, [66741]), (66782, [66742]), (66783, [66743]), (66784, [66744]), 
   (66785, [66745]), (66786, [66746]), (66787, [66747]), (66788, [66748]), (66789, [66749]), 
   (66790, [66750]), (66791, [66751]), (66792, [66752]), (66793, [66753]), (66794, [66754]), 
   (66795, [66755]), (66796, [66756]), (66797, [66757]), (66798, [66758]), (66799, [66759]), 
   (66800, [66760]), (66801, [66761]), (66802, [66762]), (66803, [66763]), (66804, [66764]), 
   (66805, [66765]), (66806, [66766]), (66807, [66767]), (66808, [66768]), (66809, [66769]), 
   (66810, [66770]), (66811, [66771]), (66967, [66928]), (66968, [66929]), (66969, [66930]), 
   (66970, [66931]), (66971, [66932]), (66972, [66933]), (66973, [66934]), (66974, [66935]), 
   (66975, [66936]), (66976, [66937]), (66977, [66938]), (66979, [66940]), (66980, [66941]), 
   (66981, [66942]), (66982, [66943]), (66983, [66944]), (66984, [66945]), (66985, [66946]), 
   (66986, [66947]), (66987, [66948]), (66988, [66949]), (66989, [66950]), (66990, [66951]), 
   (66991, [66952]), (66992, [66953]), (66993, [66954]), (66995, [66956]), (66996, [66957]), 
   (66997, [66958]), (66998, [66959]), (66999, [66960]), (67000, [66961]), (67001, [66962]), 
   (67003, [66964]), (67004, [66965]), (68800, [68736]), (68801, [68737]), (68802, [68738]), 
   (68803, [68739]), (68804, [68740]), (68805, [68741]), (68806, [68742]), (68807, [68743]), 
   (68808, [68744]), (68809, [68745]), (68810, [68746]), (68811, [68747]), (68812, [68748]), 
   (68813, [68749]), (68814, [68750]), (68815, [68751]), (68816, [68752]), (68817, [68753]), 
   (68818, [68754]), (68819, [68755]), (68820, [68756]), (68821, [68757]), (68822, [68758]), 
   (68823, [68759]), (68824, [68760]), (68825, [68761]), (68826, [68762]), (68827, [68763]), 
   (68828, [68764]), (68829, [68765]), (68830, [68766]), (68831, [68767]), (68832, [68768]), 
   (68833, [68769]), (68834, [68770]), (68835, [68771]), (68836, [68772]), (68837, [68773]), 
   (68838, [68774]), (68839, [68775]), (68840, [68776]), (68841, [68777]), (68842, [68778]), 
   (68843, [68779]), (68844, [68780]), (68845, [68781]), (68846, [68782]), (68847, [68783]), 
   (68848, [68784]), (68849, [68785]), (68850, [68786]), (71872, [71840]), (71873, [71841]), 
   (71874, [71842]), (71875, [71843]), (71876, [71844]), (71877, [71845]), (71878, [71846]), 
   (71879, [71847]), (71880, [71848]), (71881, [71849]), (71882, [71850]), (71883, [71851]), 
   (71884, [71852]), (71885, [71853]), (71886, [71854]), (71887, [71855]), (71888, [71856]), 
   (71889, [71857]), (71890, [71858]), (71891, [71859]), (71892, [71860]), (71893, [71861]), 
   (71894, [71862]), (71895, [71863]), (71896, [71864]), (71897, [71865]), (71898, [71866]), 
   (71899, [71867]), (71900, [71868]), (71901, [71869]), (71902, [71870]), (71903, [71871]), 
   (93792, [93760]), (93793, [93761]), (93794, [93762]), (93795, [93763]), (93796, [93764]), 
   (93797, [93765]), (93798, [93766]), (93799, [93767]), (93800, [93768]), (93801, [93769]), 
   (93802, [93770]), (93803, [93771]), (93804, [93772]), (93805, [93773]), (93806, [93774]), 
   (93807, [93775]), (93808, [93776]), (93809, [93777]), (93810, [93778]), (93811, [93779]), 
   (93812, [93780]), (93813, [93781]), (93814, [93782]), (93815, [93783]), (93816, [93784]), 
   (93817, [93785]), (93818, [93786]), (93819, [93787]), (93820, [93788]), (93821, [93789]), 
   (93822, [93790]), (93823, [93791]), (125218, [125184]), (125219, [125185]), (125220, [125186]), 
   (125221, [125187]), (125222, [125188]), (125223, [125189]), (125224, [125190]), 
   (125225, [125191]), (125226, [125192]), (125227, [125193]), (125228, [125194]), 
   (125229, [125195]), (125230, [125196]), (125231, [125197]), (125232, [125198]), 
   (125233, [125199]), (125234, [125200]), (125235, [125201]), (125236, [125202]), 
   (125237, [125203]), (125238, [125204]), (125239, [125205]), (125240, [125206]), 
   (125241, [125207]), (125242, [125208]), (125243, [125209]), (125244, [125210]), 
   (125245, [125211]), (125246, [125212]), (125247, [125213]), (125248, [125214]), 
   (125249, [125215]), (125250, [125216]), (125251, [125217])]

/-- Python `str.upper` on one character: the ASCII fast path, else the table
of Unicode mappings (the uppercase full case mapping is context-independent,
so mapping character by character is exact). -/
def pyUpperChar (c : Char) : List Char :=
  let n := c.toNat
  if n < 128 then (if 97 ≤ n && n ≤ 122 then [Char.ofNat (n - 32)] else [c])
  else
    match upperTable.find? (fun p => p.1 == n) with
    | some p => p.2.map Char.ofNat
    | none => [c]

/-- Python `str.upper`. -/
def pyUpper (cs : List Char) : List Char := cs.flatMap pyUpperChar

/-- Python `referral_code.replace("REF_", "")`: remove every (left-to-right,
non-overlapping) occurrence of the four characters `REF_`. -/
def removeREF : List Char → List Char
  | c1 :: c2 :: c3 :: c4 :: rest =>
    if c1 = 'R' ∧ c2 = 'E' ∧ c3 = 'F' ∧ c4 = '_' then removeREF rest
    else c1 :: removeREF (c2 :: c3 :: c4 :: rest)
  | c :: rest => c :: removeREF rest
  | [] => []

/-- Whether the four characters `REF_` occur anywhere in the list. -/
def containsREF : List Char → Bool
  | c1 :: c2 :: c3 :: c4 :: rest =>
    if c1 = 'R' ∧ c2 = 'E' ∧ c3 = 'F' ∧ c4 = '_' then true
    else containsREF (c2 :: c3 :: c4 :: rest)
  | _ => false

/-- The normalization `get_by_referral_code` applies to a candidate code. -/
def clean_code (referral_code : String) : String :=
  String.mk (pyUpper (removeREF referral_code.data))

/-- `UserService.get_by_referral_code`: match on stored code equal to the
normalized candidate. -/
def get_by_referral_code (db : DB) (referral_code : String) : Option User :=
  db.users.find? fun u => u.referral_code == clean_code referral_code

/-- The uniqueness re-check against existing codes. -/
def referral_code_taken (db : DB) (code : String) : Bool :=
  (db.users.find? fun u => u.referral_code == code).isSome

/-- The attempt loop of `_generate_unique_referral_code`: attempt index and
remaining fuel (10 attempts), then the single `length + 4` fallback. -/
def genUniqueGo (db : DB) (picks : Nat → Nat → Nat) : Nat → Nat → String
  | _, 0 => generate_referral_code (referral_code_length + 4) (picks 10)
  | i, fuel + 1 =>
    let code := generate_referral_code referral_code_length (picks i)
    if referral_code_taken db code then genUniqueGo db picks (i + 1) fuel else code

/-- `UserService._generate_unique_referral_code` with the randomness stream
`picks` (one stream per attempt). -/
def _generate_unique_referral_code (db : DB) (picks : Nat → Nat → Nat) : String :=
  genUniqueGo db picks 0 10

/-- `UserService.create_user` (the router leaves `initial_watts` at its default
of 1000): generate a unique code and append the new row. -/
def create_user (db : DB) (telegram_user : TelegramUser) (picks : Nat → Nat → Nat)
    (now : Int) (initial_watts : Int) : DB × User :=
  let code := _generate_unique_referral_code db picks
  let user : User :=
    { id := db.nextId, telegram_id := telegram_user.id, username := telegram_user.username,
      first_name := telegram_user.first_name, last_name := telegram_user.last_name,
      photo_url := telegram_user.photo_url, language_code := telegram_user.language_code,
      is_premium := telegram_user.is_premium, level := 1, watts := initial_watts,
      referral_code := code, referred_by_id := none, created_at := now, last_login_at := now }
  ({ db with users := db.users ++ [user], nextId := db.nextId + 1 }, user)

/-- `UserService.update_last_login`. -/
def update_last_login (db : DB) (user_id : Nat) (now : Int) : DB :=
  { db with users := db.users.map fun u =>
      if u.id = user_id then { u with last_login_at := now } else u }

/-! ### `app/services/referral_service.py` and the auth/social routers -/

/-- Public summary of a referrer (`ReferrerInfo` schema). -/
structure ReferrerInfo where
  user_id : Int
  nickname : String
  avatar_url : Option String
  level : Nat
deriving DecidableEq, Repr

/-- Outcome record of a referral attempt (`ReferralResult` schema). -/
structure ReferralResult where
  applied : Bool
  referrer : Option ReferrerInfo
  bonus_for_referrer : Int
  message : Option String
deriving DecidableEq, Repr

/-- `ReferralService.can_apply_referral`: self-referral check, then the
existing-account check. -/
def can_apply_referral (db : DB) (new_user_telegram_id : Int) (referrer : User) :
    Bool × String :=
  if referrer.telegram_id == new_user_telegram_id then
    (false, "Cannot use your own referral code")
  else if (db.users.find? fun u => u.telegram_id == new_user_telegram_id).isSome then
    (false, "Referral code can only be applied on first login")
  else (true, "OK")

/-- `ReferralService.apply_referral`: set `referred_by`, insert the two
friendship edges, credit the bonus, then flush.

Modelled from the spec: `app/database.py` (the session and its
commit/rollback) is not among the sources; per the specification a request is
one atomic unit of work, so a failed flush (`flushErr = some e`) leaves the
persisted state unchanged and is converted into a non-applied result carrying
the stringified failure, exactly as the except-branch of the Python code
builds it. -/
def apply_referral (db : DB) (new_user referrer : User) (flushErr : Option String)
    (now : Int) : DB × ReferralResult :=
  match flushErr with
  | none =>
    ({ db with
       users := db.users.map fun u =>
         if u.id = new_user.id then { u with referred_by_id := some referrer.id }
         else if u.id = referrer.id then { u with watts := u.watts + referral_bonus_watts }
         else u,
       friendships := db.friendships ++
         [⟨referrer.id, new_user.id, "referral", now⟩,
          ⟨new_user.id, referrer.id, "referral", now⟩] },
     { applied := true,
       referrer := some ⟨referrer.telegram_id, display_name referrer,
                         referrer.photo_url, referrer.level⟩,
       bonus_for_referrer := referral_bonus_watts,
       message := some ("You were invited by " ++ display_name referrer ++ "!") })
  | some e =>
    (db, { applied := false, referrer := none, bonus_for_referrer := 0,
           message := some ("Failed to apply referral: " ++ e) })

/-- Count of accounts referred by `user` (`get_referral_stats` query). -/
def invited_count (db : DB) (user : User) : Nat :=
  (db.users.filter fun x => x.referred_by_id == some user.id).length

/-- The dictionary `ReferralService.get_referral_stats` returns. -/
structure ReferralStats where
  total_friends_invited : Nat
  total_bonus_earned : Int
  bonus_per_friend : Int
deriving DecidableEq, Repr

/-- `ReferralService.get_referral_stats`: the bonus total is derived as
count times the configured rate. -/
def get_referral_stats (db : DB) (user : User) : ReferralStats :=
  ⟨invited_count db user, (invited_count db user : Int) * referral_bonus_watts,
   referral_bonus_watts⟩

/-- `ReferralService.get_friends`: the user's friendship edges newest first,
each joined with the friend row. -/
def get_friends (db : DB) (user : User) : List (User × Friendship) :=
  (isort (fun a b => decide (b.created_at ≤ a.created_at))
      (db.friendships.filter fun f => f.user_id == user.id)).filterMap
    fun f => (db.users.find? fun u => u.id == f.friend_id).map fun w => (w, f)

/-- One entry of the friends list (`FriendInfo` schema). -/
structure FriendInfo where
  player_id : String
  nickname : String
  level : Nat
  avatar_url : Option String
  total_earnings : Int
  your_bonus : Int
  invited_at : Int
deriving DecidableEq, Repr

/-- The per-friend bonus of the friends endpoint: the configured amount when
the requester referred this friend, else zero. -/
def friend_your_bonus (current friend : User) : Int :=
  if friend.referred_by_id == some current.id then referral_bonus_watts else 0

/-- The `/social/friends` response body: the enriched list plus the total of
the per-friend bonuses. -/
def get_friends_response (db : DB) (current : User) : List FriendInfo × Int :=
  let fl := (get_friends db current).map fun p =>
    ({ player_id := toString p.1.id, nickname := display_name p.1, level := p.1.level,
       avatar_url := p.1.photo_url, total_earnings := p.1.watts,
       your_bonus := friend_your_bonus current p.1, invited_at := p.2.created_at } : FriendInfo)
  (fl, (fl.map FriendInfo.your_bonus).sum)

/-- What the auth endpoint reports about this request (token issuance and the
static echo fields are omitted; they carry no state). -/
structure AuthOutcome where
  is_new_player : Bool
  player_id : Nat
  own_referral_code : String
  referral : Option ReferralResult
deriving DecidableEq, Repr

/-- The non-applied result with a fixed message. -/
def notApplied (msg : String) : ReferralResult :=
  { applied := false, referrer := none, bonus_for_referrer := 0, message := some msg }

/-- `authenticate_telegram` (`app/routers/auth.py`) after a validated and
parsed payload: the explicit request code takes priority over the deep-link
parameter by Python `or` (so a blank string falls through); existing users only
get their last-login refreshed; new users run the referral decision before
creation and the APPLY (or the invalid/no-code fallback) after it.

When `can_apply_referral` rejects, the router drops the referrer and stores
the reason, but its final if/elif/else then takes the else branch (the stored
result makes the elif guard false) and overwrites the reason with the no-code
message; the embedding reproduces that overwrite. -/
def authenticate_telegram (db : DB) (tg : TelegramUser)
    (request_referral_code start_param : Option String)
    (picks : Nat → Nat → Nat) (now : Int) (flushErr : Option String) : DB × AuthOutcome :=
  let referral_code :=
    if pyTruthyOptStr request_referral_code then request_referral_code else start_param
  match get_by_telegram_id db tg.id with
  | some user =>
    let db1 := update_last_login db user.id now
    (db1, { is_new_player := false, player_id := user.id,
            own_referral_code := user.referral_code,
            referral := if pyTruthyOptStr referral_code then
                some (notApplied "Referral code can only be applied on first login")
              else none })
  | none =>
    let lookup :=
      if pyTruthyOptStr referral_code then get_by_referral_code db (referral_code.getD "")
      else none
    match lookup with
    | some r =>
      let ca := can_apply_referral db tg.id r
      if ca.1 then
        let cr := create_user db tg picks now 1000
        let ar := apply_referral cr.1 cr.2 r flushErr now
        (ar.1, { is_new_player := true, player_id := cr.2.id,
                 own_referral_code := cr.2.referral_code, referral := some ar.2 })
      else
        let cr := create_user db tg picks now 1000
        (cr.1, { is_new_player := true, player_id := cr.2.id,
                 own_referral_code := cr.2.referral_code,
                 referral := some (notApplied "No referral code provided") })
    | none =>
      let cr := create_user db tg picks now 1000
      (cr.1, { is_new_player := true, player_id := cr.2.id,
               own_referral_code := cr.2.referral_code,
               referral := some (if pyTruthyOptStr referral_code then
                   notApplied "Invalid referral code"
                 else notApplied "No referral code provided") })

/-- The normalization the specification describes for C6: strip one literal
leading `REF_`, then uppercase. -/
def specNormalizeCode (s : String) : String :=
  String.mk (pyUpper (match s.data with
    | 'R' :: 'E' :: 'F' :: '_' :: rest => rest
    | l => l))

/-! ### Example fixtures used by witnesses and counterexamples -/

def exTgA : TelegramUser := ⟨100, "Alice", none, some "alice", "en", false, none⟩

def exTgB : TelegramUser := ⟨200, "Bob", none, none, "en", false, none⟩

def exAlice : User :=
  { id := 1, telegram_id := 100, username := some "alice", first_name := "Alice",
    last_name := none, photo_url := none, language_code := "en", is_premium := false,
    level := 1, watts := 1000, referral_code := "AAAAAAAA", referred_by_id := none,
    created_at := 10, last_login_at := 10 }

def exBob : User :=
  { id := 2, telegram_id := 200, username := none, first_name := "Bob",
    last_name := none, photo_url := none, language_code := "en", is_premium := false,
    level := 1, watts := 1000, referral_code := "BBBBBBBB", referred_by_id := some 1,
    created_at := 20, last_login_at := 20 }

/-- An account whose stored code collides with the over-stripped normalization. -/
def exXY : User :=
  { id := 3, telegram_id := 300, username := none, first_name := "Xy",
    last_name := none, photo_url := none, language_code := "en", is_premium := false,
    level := 1, watts := 0, referral_code := "XY", referred_by_id := none,
    created_at := 0, last_login_at := 0 }

def exDb0 : DB := ⟨[], [], 1⟩

def exDb : DB := ⟨[exAlice], [], 2⟩

def exDbF : DB :=
  ⟨[exAlice, exBob],
   [⟨1, 2, "referral", 20⟩, ⟨2, 1, "referral", 20⟩], 3⟩

def exDbXY : DB := ⟨[exXY], [], 4⟩

def exPicks : Nat → Nat → Nat := fun _ i => i

/-! ### Helper lemmas -/

theorem sha256_length (msg : List Nat) : (sha256 msg).length = 32 := by
  simp [sha256, wordBytes]

theorem hmacSha256_length (key msg : List Nat) : (hmacSha256 key msg).length = 32 := by
  unfold hmacSha256
  exact sha256_length _

theorem bytesToHexChars_length (bs : List Nat) :
    (bytesToHexChars bs).length = 2 * bs.length := by
  induction bs with
  | nil => rfl
  | cons b t ih => simp [bytesToHexChars, ih]; ring

theorem computedHash_data_length (tok : String) (pairs : List (String × String)) :
    (computedHash tok pairs).data.length = 64 := by
  simp [computedHash, hexStr, bytesToHexChars_length, hmacSha256_length]

theorem computedHash_ne (tok : String) (pairs : List (String × String)) (s : String)
    (h : s.data.length ≠ 64) : computedHash tok pairs ≠ s := by
  intro he
  exact h (he ▸ computedHash_data_length tok pairs)

theorem expiredMsg_ne_invalidHashMsg (a b : Int) : expiredMsg a b ≠ invalidHashMsg := by
  intro h
  have h2 := congrArg (fun s => s.data.head?) h
  simp only [expiredMsg, invalidHashMsg, String.data_append, List.head?_append] at h2
  simp at h2

theorem authDateCheck_ne_invalidHash (p : List (String × String)) (now ma : Int) :
    authDateCheck p now ma ≠ (false, some invalidHashMsg) := by
  unfold authDateCheck
  by_cases ht : pyTruthyOptStr (qsFirst p "auth_date") = true
  · simp only [ht, if_true]
    cases hpi : pyInt ((qsFirst p "auth_date").getD "") with
    | none =>
      simp only [ne_eq, Prod.mk.injEq, Option.some.injEq, not_and]
      intro _
      decide
    | some ts =>
      show (if ts < timeTMin ∨ timeTMax < ts then (false, some overflowValidationMsg)
        else if ts < localtimeOkMin ∨ localtimeOkMax < ts then
          (false, some localtimeValidationMsg)
        else if ts < fromtimestampOkMin ∨ fromtimestampOkMax < ts then
          (false, some invalidAuthDateMsg)
        else if now - ts > ma then (false, some (expiredMsg (now - ts) ma))
        else (true, none)) ≠ (false, some invalidHashMsg)
      split_ifs with h1 h2 h3 h4
      · simp only [ne_eq, Prod.mk.injEq, Option.some.injEq, not_and]
        intro _
        decide
      · simp only [ne_eq, Prod.mk.injEq, Option.some.injEq, not_and]
        intro _
        decide
      · simp only [ne_eq, Prod.mk.injEq, Option.some.injEq, not_and]
        intro _
        decide
      · simp only [ne_eq, Prod.mk.injEq, Option.some.injEq, not_and]
        intro _
        exact expiredMsg_ne_invalidHashMsg _ _
      · simp
  · simp [ht]

/-- C1 counterexample: on the payload `hash=` the signature is present but
blank; the computed digest (64 hex characters) necessarily differs from the
received blank hash, so the claim requires the signature-mismatch error, but
the code reports the missing-signature error instead. -/
theorem C1_counterexample :
    validate_init_data "token" 0 "hash=" 86400 = (false, some missingHashMsg) ∧
    qsFirst (parse_qsl "hash=") "hash" = some "" ∧
    computedHash "token" (parse_qsl "hash=") ≠ "" ∧
    missingHashMsg ≠ invalidHashMsg := by
  refine ⟨by decide, by decide, computedHash_ne _ _ _ (by decide), by decide⟩

/-- C1 (amended): signature verification derives the secondary key as
HMAC-SHA256 keyed `WebAppData` over the shared secret, hashes the
sorted-key check-string, and: fails with the missing-signature error whenever
the received `hash` is absent or blank; fails with the stringified
constant-time-comparison type error when the received hash is non-ASCII; for
a non-blank ASCII received hash fails with the signature-mismatch error
exactly when the computed lowercase hex digest differs from it; and on
agreement proceeds to the freshness phase. -/
theorem C1_amended_signature_check (tok payload : String) (now ma : Int) :
    (pyTruthyOptStr (qsFirst (parse_qsl payload) "hash") = false →
      validate_init_data tok now payload ma = (false, some missingHashMsg)) ∧
    (∀ h, qsFirst (parse_qsl payload) "hash" = some h → h ≠ "" →
      isAsciiStr h = false →
      validate_init_data tok now payload ma =
        (false, some compareDigestValidationMsg)) ∧
    (∀ h, qsFirst (parse_qsl payload) "hash" = some h → h ≠ "" →
      isAsciiStr h = true →
      (validate_init_data tok now payload ma = (false, some invalidHashMsg) ↔
        computedHash tok (parse_qsl payload) ≠ h)) ∧
    (∀ h, qsFirst (parse_qsl payload) "hash" = some h → h ≠ "" →
      isAsciiStr h = true →
      computedHash tok (parse_qsl payload) = h →
      validate_init_data tok now payload ma =
        authDateCheck (parse_qsl payload) now ma) := by
  refine ⟨?_, ?_, ?_, ?_⟩
  · intro hf
    simp [validate_init_data, hf]
  · intro h hh hne hnasc
    have hts : pyTruthyOptStr (some h) = true := by
      simp [pyTruthyOptStr, hne]
    simp [validate_init_data, hh, hts, hnasc]
  · intro h hh hne hasc
    have hts : pyTruthyOptStr (some h) = true := by
      simp [pyTruthyOptStr, hne]
    constructor
    · intro hv hceq
      have hred : validate_init_data tok now payload ma =
          authDateCheck (parse_qsl payload) now ma := by
        simp [validate_init_data, hh, hts, hasc, hceq]
      exact authDateCheck_ne_invalidHash _ now ma (hred ▸ hv)
    · intro hcn
      simp [validate_init_data, hh, hts, hasc, bne_iff_ne, hcn]
  · intro h hh hne hasc hceq
    have hts : pyTruthyOptStr (some h) = true := by
      simp [pyTruthyOptStr, hne]
    simp [validate_init_data, hh, hts, hasc, hceq]

/-- C1 witness: a non-blank ASCII received hash that cannot equal a
64-character digest yields exactly the signature-mismatch failure. -/
theorem C1_witness :
    validate_init_data "t" 0 "hash=x" 86400 = (false, some invalidHashMsg) := by
  refine ((C1_amended_signature_check "t" "hash=x" 0 86400).2.2.1 "x"
    (by decide) (by decide) (by decide)).mpr ?_
  exact computedHash_ne _ _ _ (by decide)

theorem mem_insertSorted (le : α → α → Bool) (a x : α) (l : List α) :
    x ∈ insertSorted le a l ↔ x = a ∨ x ∈ l := by
  induction l with
  | nil => simp [insertSorted]
  | cons b t ih =>
    by_cases hle : le a b
    · simp [insertSorted, hle]
    · simp [insertSorted, hle, ih]
      tauto

theorem mem_isort (le : α → α → Bool) (x : α) (l : List α) :
    x ∈ isort le l ↔ x ∈ l := by
  induction l with
  | nil => simp [isort]
  | cons a t ih => simp [isort, mem_insertSorted, ih]

theorem mem_dedupKeysAux (l : List String) (k : String) :
    ∀ seen, k ∈ dedupKeysAux seen l ↔ k ∈ l ∧ k ∉ seen := by
  induction l with
  | nil => intro seen; simp [dedupKeysAux]
  | cons a t ih =>
    intro seen
    rw [dedupKeysAux]
    by_cases hc : seen.elem a = true
    · have ha : a ∈ seen := List.elem_iff.mp hc
      simp only [hc, if_true, ih, List.mem_cons]
      constructor
      · exact fun h => ⟨Or.inr h.1, h.2⟩
      · rintro ⟨h1 | h1, h2⟩
        · exact absurd (h1 ▸ ha) h2
        · exact ⟨h1, h2⟩
    · have ha : a ∉ seen := fun hm => hc (List.elem_iff.mpr hm)
      have hcf : seen.elem a = false := by
        cases hb : seen.elem a
        · rfl
        · exact absurd hb hc
      simp only [hcf, Bool.false_eq_true, if_false, List.mem_cons, ih]
      constructor
      · rintro (h | ⟨h1, h2⟩)
        · exact ⟨Or.inl h, h ▸ ha⟩
        · exact ⟨Or.inr h1, fun hm => h2 (Or.inr hm)⟩
      · rintro ⟨h1 | h1, h2⟩
        · exact Or.inl h1
        · by_cases hk : k = a
          · exact Or.inl hk
          · refine Or.inr ⟨h1, fun hm => ?_⟩
            rcases hm with h | h
            · exact hk h
            · exact h2 h

theorem mem_sortedKeys (pairs : List (String × String)) (k : String) :
    k ∈ sortedKeys pairs ↔ k ∈ pairs.map Prod.fst := by
  simp [sortedKeys, mem_isort, dedupKeys, mem_dedupKeysAux]

theorem qsFirst_eq_none_of_not_mem (pairs : List (String × String)) (k : String)
    (h : k ∉ sortedKeys pairs) : qsFirst pairs k = none := by
  have h2 : k ∉ pairs.map Prod.fst := fun hm => h ((mem_sortedKeys _ _).mpr hm)
  have h3 : pairs.find? (fun p => p.1 == k) = none := by
    rw [List.find?_eq_none]
    intro x hx hpx
    exact h2 (eq_of_beq hpx ▸ List.mem_map_of_mem Prod.fst hx)
  simp [qsFirst, h3]

/-- C2 counterexample: in the payload `a=1&a=2&hash=h` the duplicated key `a`
contributes its first value `1` to the check-string, while the claimed
last-occurrence-wins mapping would contribute `2`. -/
theorem C2_counterexample :
    data_check_string (parse_qsl "a=1&a=2&hash=h") = "a=1" ∧
    data_check_string_lastwins (parse_qsl "a=1&a=2&hash=h") = "a=2" ∧
    ("a=1" : String) ≠ "a=2" :=
  ⟨by decide, by decide, by decide⟩

/-- C2 (amended): parsing keeps blank values and the first occurrence of a
duplicated key wins: two payloads with the same key set and the same first
value per key produce the same check-string and the same validation verdict. -/
theorem C2_amended_first_occurrence_wins (tok s1 s2 : String) (now ma : Int)
    (hk : sortedKeys (parse_qsl s1) = sortedKeys (parse_qsl s2))
    (hv : ∀ k ∈ sortedKeys (parse_qsl s1),
      qsFirst (parse_qsl s1) k = qsFirst (parse_qsl s2) k) :
    data_check_string (parse_qsl s1) = data_check_string (parse_qsl s2) ∧
    validate_init_data tok now s1 ma = validate_init_data tok now s2 ma := by
  have hv2 : ∀ k, qsFirst (parse_qsl s1) k = qsFirst (parse_qsl s2) k := by
    intro k
    by_cases hm : k ∈ sortedKeys (parse_qsl s1)
    · exact hv k hm
    · rw [qsFirst_eq_none_of_not_mem _ _ hm, qsFirst_eq_none_of_not_mem _ _ (hk ▸ hm)]
  have hdcs : data_check_string (parse_qsl s1) = data_check_string (parse_qsl s2) := by
    unfold data_check_string
    rw [hk]
    exact congrArg joinNl (List.map_congr_left fun a _ => by rw [hv2 a])
  refine ⟨hdcs, ?_⟩
  have hch : computedHash tok (parse_qsl s1) = computedHash tok (parse_qsl s2) := by
    unfold computedHash
    rw [hdcs]
  simp only [validate_init_data, authDateCheck]
  rw [hv2 "hash", hch, hv2 "auth_date"]

/-- C2 witness: a payload with a duplicated key and a blank value validates
exactly like its deduplicated first-value counterpart. -/
theorem C2_witness :
    data_check_string (parse_qsl "b=&a=1&a=2&hash=h") =
      data_check_string (parse_qsl "b=&a=1&hash=h") ∧
    validate_init_data "t" 0 "b=&a=1&a=2&hash=h" 86400 =
      validate_init_data "t" 0 "b=&a=1&hash=h" 86400 :=
  C2_amended_first_occurrence_wins "t" "b=&a=1&a=2&hash=h" "b=&a=1&hash=h" 0 86400
    (by decide) (by decide)

set_option maxRecDepth 1000000 in
/-- C3 counterexample: a payload with a correctly signed but blank `auth_date`
(the hash below is the genuine HMAC-SHA256 signature of the check-string
`auth_date=` under bot token `token`). The field is present and is not a valid
integer, so the claim requires the malformed-auth-date failure, but validation
succeeds: the code treats the blank value as absent. -/
theorem C3_counterexample :
    validate_init_data "token" 100000
      "auth_date=&hash=d5349a59323500fb8d2c33986c114634c94ee1479c1c5d4438b356994c6b21cc"
      86400 = (true, none) ∧
    qsFirst (parse_qsl
      "auth_date=&hash=d5349a59323500fb8d2c33986c114634c94ee1479c1c5d4438b356994c6b21cc")
      "auth_date" = some "" ∧
    pyInt "" = none :=
  ⟨by decide, by decide, by decide⟩

/-- C3 (amended): once the signature check passed, the freshness phase: when
`auth_date` is absent or blank, validation succeeds with no freshness check;
when present, non-blank and not a valid integer it fails with the
malformed-auth-date error; when present, non-blank and integral the behavior
follows the measured bands of `datetime.fromtimestamp`: beyond `time_t` the
overflow escapes as a validation-error message, outside the range `localtime`
can represent the OSError escapes likewise, outside the `datetime` year range
the ValueError counts as a malformed date, and inside the representable range
it fails with the expiry error exactly when
`now - auth_date > max_age_seconds`. -/
theorem C3_amended_freshness (tok payload : String) (now ma : Int) (h : String)
    (hh : qsFirst (parse_qsl payload) "hash" = some h) (hne : h ≠ "")
    (hasc : isAsciiStr h = true)
    (hmatch : computedHash tok (parse_qsl payload) = h) :
    (pyTruthyOptStr (qsFirst (parse_qsl payload) "auth_date") = false →
      validate_init_data tok now payload ma = (true, none)) ∧
    (∀ s, qsFirst (parse_qsl payload) "auth_date" = some s → s ≠ "" → pyInt s = none →
      validate_init_data tok now payload ma = (false, some invalidAuthDateMsg)) ∧
    (∀ s ts, qsFirst (parse_qsl payload) "auth_date" = some s → s ≠ "" →
      pyInt s = some ts →
      ((ts < timeTMin ∨ timeTMax < ts →
          validate_init_data tok now payload ma =
            (false, some overflowValidationMsg)) ∧
       (timeTMin ≤ ts → ts ≤ timeTMax → ts < localtimeOkMin ∨ localtimeOkMax < ts →
          validate_init_data tok now payload ma =
            (false, some localtimeValidationMsg)) ∧
       (localtimeOkMin ≤ ts → ts ≤ localtimeOkMax →
          ts < fromtimestampOkMin ∨ fromtimestampOkMax < ts →
          validate_init_data tok now payload ma =
            (false, some invalidAuthDateMsg)) ∧
       (fromtimestampOkMin ≤ ts → ts ≤ fromtimestampOkMax →
          ((now - ts > ma →
            validate_init_data tok now payload ma =
              (false, some (expiredMsg (now - ts) ma))) ∧
           (¬ now - ts > ma →
            validate_init_data tok now payload ma = (true, none)))))) := by
  have hts : pyTruthyOptStr (some h) = true := by
    simp [pyTruthyOptStr, hne]
  have hred : validate_init_data tok now payload ma =
      authDateCheck (parse_qsl payload) now ma := by
    simp [validate_init_data, hh, hts, hasc, hmatch]
  refine ⟨?_, ?_, ?_⟩
  · intro hf
    rw [hred]
    simp [authDateCheck, hf]
  · intro s hs hsne hpi
    have hst : pyTruthyOptStr (some s) = true := by
      simp [pyTruthyOptStr, hsne]
    rw [hred]
    simp [authDateCheck, hs, hst, hpi]
  · intro s ts hs hsne hpi
    have hst : pyTruthyOptStr (some s) = true := by
      simp [pyTruthyOptStr, hsne]
    refine ⟨?_, ?_, ?_, ?_⟩
    · intro hb
      rw [hred]
      simp [authDateCheck, hs, hst, hpi, hb]
    · intro hb1 hb2 hb
      have hn1 : ¬ (ts < timeTMin ∨ timeTMax < ts) := by omega
      rw [hred]
      simp [authDateCheck, hs, hst, hpi, hn1, hb]
    · intro hb1 hb2 hb
      have hn1 : ¬ (ts < timeTMin ∨ timeTMax < ts) := by
        simp only [timeTMin, timeTMax, localtimeOkMin, localtimeOkMax] at hb1 hb2 ⊢
        omega
      have hn2 : ¬ (ts < localtimeOkMin ∨ localtimeOkMax < ts) := by omega
      rw [hred]
      simp [authDateCheck, hs, hst, hpi, hn1, hn2, hb]
    · intro hb1 hb2
      have hn1 : ¬ (ts < timeTMin ∨ timeTMax < ts) := by
        simp only [timeTMin, timeTMax, fromtimestampOkMin, fromtimestampOkMax] at hb1 hb2 ⊢
        omega
      have hn2 : ¬ (ts < localtimeOkMin ∨ localtimeOkMax < ts) := by
        simp only [localtimeOkMin, localtimeOkMax, fromtimestampOkMin,
          fromtimestampOkMax] at hb1 hb2 ⊢
        omega
      have hn3 : ¬ (ts < fromtimestampOkMin ∨ fromtimestampOkMax < ts) := by omega
      constructor
      · intro hexp
        rw [hred]
        simp [authDateCheck, hs, hst, hpi, hn1, hn2, hn3, hexp]
      · intro hnx
        rw [hred]
        simp [authDateCheck, hs, hst, hpi, hn1, hn2, hn3, hnx]

set_option maxRecDepth 1000000 in
/-- C3 witness: the amended theorem applied to a genuinely signed payload whose
`auth_date` is blank, landing in the no-freshness-check branch. -/
theorem C3_witness :
    validate_init_data "token" 100000
      "auth_date=&hash=d5349a59323500fb8d2c33986c114634c94ee1479c1c5d4438b356994c6b21cc"
      86400 = (true, none) :=
  (C3_amended_freshness "token"
    "auth_date=&hash=d5349a59323500fb8d2c33986c114634c94ee1479c1c5d4438b356994c6b21cc"
    100000 86400
    "d5349a59323500fb8d2c33986c114634c94ee1479c1c5d4438b356994c6b21cc"
    (by decide) (by decide) (by decide) (by decide)).1 (by decide)

theorem removeREF_eq_self (l : List Char) (h : containsREF l = false) : removeREF l = l := by
  induction l using removeREF.induct with
  | case1 c1 c2 c3 c4 rest hc ih =>
    simp [containsREF, hc] at h
  | case2 c1 c2 c3 c4 rest hc ih =>
    rw [containsREF] at h
    simp only [hc, if_false] at h
    rw [removeREF]
    simp [hc, ih h]
  | case3 c rest hshape ih1 =>
    cases rest with
    | nil => rfl
    | cons a t =>
      cases t with
      | nil => rfl
      | cons b t2 =>
        cases t2 with
        | nil => rfl
        | cons d t3 => exact absurd rfl (hshape a b d t3)
  | case4 => rfl

/-- C6 counterexample: the stored code `XY` is matched by the candidate
`XREF_Y`, although the claimed normalization (strip only a leading `REF_`,
uppercase) leaves `XREF_Y` unchanged and distinct from `XY`: `str.replace`
removes the occurrence in the middle as well. -/
theorem C6_counterexample :
    get_by_referral_code exDbXY "XREF_Y" = some exXY ∧
    specNormalizeCode "XREF_Y" = "XREF_Y" ∧
    exXY.referral_code ≠ specNormalizeCode "XREF_Y" :=
  ⟨by decide, by decide, by decide⟩

/-- C6 (amended): lookup normalizes the candidate by removing every
(case-sensitive, left-to-right) occurrence of `REF_` and uppercasing; in
particular a leading `REF_` is stripped, a string with no `REF_` occurrence is
preserved up to uppercasing, and an account matches exactly when its stored
code equals the normalized candidate. -/
theorem C6_amended_normalization (db : DB) (code : String) :
    (get_by_referral_code db code =
      db.users.find? fun u => u.referral_code == clean_code code) ∧
    (∀ t : List Char, clean_code (String.mk ('R' :: 'E' :: 'F' :: '_' :: t)) =
      clean_code (String.mk t)) ∧
    (containsREF code.data = false →
      clean_code code = String.mk (pyUpper code.data)) := by
  refine ⟨rfl, ?_, ?_⟩
  · intro t
    simp [clean_code, removeREF]
  · intro hnc
    simp [clean_code, removeREF_eq_self _ hnc]

set_option maxRecDepth 4000 in
/-- C6 witness: a code with no `REF_` occurrence is only uppercased, with the
Unicode mapping of `str.upper`: the long s maps to the capital S, so the
candidate matches stored codes beginning with S. -/
theorem C6_witness :
    containsREF "ſAAAAAAA".data = false ∧
    clean_code "ſAAAAAAA" = String.mk (pyUpper "ſAAAAAAA".data) ∧
    clean_code "ſAAAAAAA" = "SAAAAAAA" :=
  ⟨by decide, (C6_amended_normalization exDb0 "ſAAAAAAA").2.2 (by decide), by decide⟩

/-- C4: the referral outcome follows the specified ordered decision tree. For
a new user supplying a candidate code (explicit parameter first, else the
deep-link parameter): unknown code yields the invalid-code result; a code
owned by an account with the same external id would yield the own-code
rejection; an existing account with the same external id would yield the
first-login-only rejection (both vacuous for a genuinely new user, since no
account carries that external id); otherwise the referral applies. A returning
user supplying a code always gets the first-login-only rejection. -/
theorem C4_referral_decision (db : DB) (tg : TelegramUser) (rc sp : Option String)
    (picks : Nat → Nat → Nat) (now : Int) :
    (get_by_telegram_id db tg.id = none →
      pyTruthyOptStr (if pyTruthyOptStr rc then rc else sp) = true →
      (authenticate_telegram db tg rc sp picks now none).2.referral =
        some (match get_by_referral_code db
            ((if pyTruthyOptStr rc then rc else sp).getD "") with
          | none => notApplied "Invalid referral code"
          | some r =>
            if r.telegram_id = tg.id then notApplied "Cannot use your own referral code"
            else if (get_by_telegram_id db tg.id).isSome then
              notApplied "Referral code can only be applied on first login"
            else
              { applied := true,
                referrer := some ⟨r.telegram_id, display_name r, r.photo_url, r.level⟩,
                bonus_for_referrer := referral_bonus_watts,
                message := some ("You were invited by " ++ display_name r ++ "!") })) ∧
    (∀ u, get_by_telegram_id db tg.id = some u →
      pyTruthyOptStr (if pyTruthyOptStr rc then rc else sp) = true →
      (authenticate_telegram db tg rc sp picks now none).2.referral =
        some (notApplied "Referral code can only be applied on first login")) := by
  constructor
  · intro hnew htr
    cases hl : get_by_referral_code db ((if pyTruthyOptStr rc then rc else sp).getD "") with
    | none =>
      simp [authenticate_telegram, hnew, htr, hl]
    | some r =>
      have hrmem : r ∈ db.users := List.mem_of_find?_eq_some hl
      have hall := List.find?_eq_none.mp hnew
      have hneb : (r.telegram_id == tg.id) = false := by
        cases hb : r.telegram_id == tg.id
        · rfl
        · exact absurd hb (hall r hrmem)
      have hne : ¬ (r.telegram_id = tg.id) := by
        intro he
        rw [he] at hneb
        simp at hneb
      have hnone : (db.users.find? fun u => u.telegram_id == tg.id) = none := hnew
      simp [authenticate_telegram, hnew, htr, hl, can_apply_referral, hneb, hnone,
        apply_referral, hne]
  · intro u hu htr
    simp [authenticate_telegram, hu, htr]

/-- C4 witness: a new user supplying an existing code gets the applied result
of the decision tree. -/
theorem C4_witness :
    (authenticate_telegram exDb exTgB (some "AAAAAAAA") none exPicks 20 none).2.referral =
      some { applied := true,
             referrer := some ⟨100, "alice", none, 1⟩,
             bonus_for_referrer := 5000,
             message := some "You were invited by alice!" } := by
  have h := (C4_referral_decision exDb exTgB (some "AAAAAAAA") none exPicks 20).1
    (by decide) (by decide)
  rw [h]
  decide

theorem find?_id_map (l : List User) (f : User → User)
    (hid : ∀ u, (f u).id = u.id) (i : Nat) :
    ((l.map f).find? fun u => u.id == i) = (l.find? fun u => u.id == i).map f := by
  rw [List.find?_map]
  have hfe : ((fun u : User => u.id == i) ∘ f) = fun u : User => u.id == i := by
    funext u
    simp [Function.comp, hid u]
  rw [hfe]

theorem apply_upd_id (nu r u : User) :
    (if u.id = nu.id then { u with referred_by_id := some r.id }
     else if u.id = r.id then { u with watts := u.watts + referral_bonus_watts }
     else u).id = u.id := by
  by_cases h1 : u.id = nu.id
  · rw [if_pos h1]
  · rw [if_neg h1]
    by_cases h2 : u.id = r.id
    · rw [if_pos h2]
    · rw [if_neg h2]

theorem apply_upd_at_referrer (nu r w : User) (h1 : ¬ w.id = nu.id) (h2 : w.id = r.id) :
    (if w.id = nu.id then { w with referred_by_id := some r.id }
     else if w.id = r.id then { w with watts := w.watts + referral_bonus_watts }
     else w) = { w with watts := w.watts + referral_bonus_watts } := by
  rw [if_neg h1, if_pos h2]

theorem apply_upd_at_new (nu r w : User) (h1 : w.id = nu.id) :
    (if w.id = nu.id then { w with referred_by_id := some r.id }
     else if w.id = r.id then { w with watts := w.watts + referral_bonus_watts }
     else w) = { w with referred_by_id := some r.id } := by
  rw [if_pos h1]

/-- C5: the APPLY action credits the referrer by exactly the configured bonus
when it reports applied, leaves the persisted state untouched on every
non-applied outcome (a caught flush failure included, which is converted into
a non-applied result carrying the stringified failure), and writes the new
account referral back-reference, the two friendship edges and the balance
credit together or not at all. -/
theorem C5_apply_bonus_atomicity (db : DB) (nu r : User) (err : Option String)
    (now : Int) (hne : nu.id ≠ r.id) :
    ((apply_referral db nu r err now).2.applied = true ↔ err = none) ∧
    (err = none →
      (apply_referral db nu r err now).2.bonus_for_referrer = referral_bonus_watts ∧
      (((apply_referral db nu r err now).1.users.find? fun u => u.id == r.id).map
          User.watts) =
        ((db.users.find? fun u => u.id == r.id).map fun u =>
          u.watts + referral_bonus_watts) ∧
      (((apply_referral db nu r err now).1.users.find? fun u => u.id == nu.id).map
          User.referred_by_id) =
        ((db.users.find? fun u => u.id == nu.id).map fun _ => some r.id) ∧
      (apply_referral db nu r err now).1.friendships =
        db.friendships ++ [⟨r.id, nu.id, "referral", now⟩,
          ⟨nu.id, r.id, "referral", now⟩]) ∧
    (∀ e, err = some e →
      (apply_referral db nu r err now).1 = db ∧
      (apply_referral db nu r err now).2 =
        { applied := false, referrer := none, bonus_for_referrer := 0,
          message := some ("Failed to apply referral: " ++ e) }) ∧
    ((apply_referral db nu r err now).2.applied = false →
      (apply_referral db nu r err now).1 = db) := by
  cases err with
  | none =>
    refine ⟨by simp [apply_referral], ?_, ?_, ?_⟩
    · intro _
      refine ⟨rfl, ?_, ?_, rfl⟩
      · rw [show (apply_referral db nu r none now).1.users =
          db.users.map (fun u => if u.id = nu.id then { u with referred_by_id := some r.id }
            else if u.id = r.id then { u with watts := u.watts + referral_bonus_watts }
            else u) from rfl]
        rw [find?_id_map db.users _ (apply_upd_id nu r) r.id]
        cases hf : db.users.find? fun u => u.id == r.id with
        | none => rfl
        | some w =>
          have hb := List.find?_some hf
          have hwid : w.id = r.id := eq_of_beq hb
          have hwne : ¬ (w.id = nu.id) := by
            rw [hwid]
            exact fun he => hne he.symm
          simp only [Option.map_some']
          rw [apply_upd_at_referrer nu r w hwne hwid]
      · rw [show (apply_referral db nu r none now).1.users =
          db.users.map (fun u => if u.id = nu.id then { u with referred_by_id := some r.id }
            else if u.id = r.id then { u with watts := u.watts + referral_bonus_watts }
            else u) from rfl]
        rw [find?_id_map db.users _ (apply_upd_id nu r) nu.id]
        cases hf : db.users.find? fun u => u.id == nu.id with
        | none => rfl
        | some w =>
          have hb := List.find?_some hf
          have hwid : w.id = nu.id := eq_of_beq hb
          simp only [Option.map_some']
          rw [apply_upd_at_new nu r w hwid]
    · intro e he
      cases he
    · intro hap
      simp [apply_referral] at hap
  | some e0 =>
    refine ⟨(by simp [apply_referral]), (by intro h; cases h), ?_, (by intro _; rfl)⟩
    intro e he
    cases he
    exact ⟨rfl, rfl⟩

/-- C5 witness: applying a referral in a two-account state credits the
referrer with exactly the configured 5000 watts. -/
theorem C5_witness :
    (((apply_referral exDbF exBob exAlice none 30).1.users.find?
        fun u => u.id == exAlice.id).map User.watts) = some 6000 := by
  have h := (C5_apply_bonus_atomicity exDbF exBob exAlice none 30 (by decide)).2.1 rfl
  rw [h.2.1]
  decide

theorem find?_tid_map (l : List User) (f : User → User)
    (hid : ∀ u, (f u).telegram_id = u.telegram_id) (i : Int) :
    ((l.map f).find? fun u => u.telegram_id == i) =
      (l.find? fun u => u.telegram_id == i).map f := by
  rw [List.find?_map]
  have hfe : ((fun u : User => u.telegram_id == i) ∘ f) =
      fun u : User => u.telegram_id == i := by
    funext u
    simp [Function.comp, hid u]
  rw [hfe]

theorem get_by_tid_update_last_login (db : DB) (uid : Nat) (now : Int) (i : Int) :
    get_by_telegram_id (update_last_login db uid now) i =
      (get_by_telegram_id db i).map fun u =>
        if u.id = uid then { u with last_login_at := now } else u := by
  unfold get_by_telegram_id update_last_login
  refine find?_tid_map db.users _ ?_ i
  intro u
  by_cases h : u.id = uid
  · rw [if_pos h]
  · rw [if_neg h]

theorem get_by_tid_create (db : DB) (tg : TelegramUser) (picks : Nat → Nat → Nat)
    (now iw : Int) (h : get_by_telegram_id db tg.id = none) :
    get_by_telegram_id (create_user db tg picks now iw).1 tg.id =
      some (create_user db tg picks now iw).2 := by
  unfold get_by_telegram_id at h ⊢
  rw [show (create_user db tg picks now iw).1.users =
    db.users ++ [(create_user db tg picks now iw).2] from rfl]
  rw [List.find?_append, h]
  simp [create_user]

theorem get_by_tid_apply_referral (db : DB) (nu r : User) (ferr : Option String)
    (now : Int) (i : Int) (w : User) (hw : get_by_telegram_id db i = some w) :
    ∃ v, get_by_telegram_id (apply_referral db nu r ferr now).1 i = some v := by
  cases ferr with
  | some e => exact ⟨w, hw⟩
  | none =>
    have hupd : ∀ u : User,
        ((if u.id = nu.id then { u with referred_by_id := some r.id }
          else if u.id = r.id then { u with watts := u.watts + referral_bonus_watts }
          else u) : User).telegram_id = u.telegram_id := by
      intro u
      by_cases h1 : u.id = nu.id
      · rw [if_pos h1]
      · rw [if_neg h1]
        by_cases h2 : u.id = r.id
        · rw [if_pos h2]
        · rw [if_neg h2]
    refine ⟨if w.id = nu.id then { w with referred_by_id := some r.id }
      else if w.id = r.id then { w with watts := w.watts + referral_bonus_watts }
      else w, ?_⟩
    unfold get_by_telegram_id at hw ⊢
    rw [show (apply_referral db nu r none now).1.users =
      db.users.map (fun u => if u.id = nu.id then { u with referred_by_id := some r.id }
        else if u.id = r.id then { u with watts := u.watts + referral_bonus_watts }
        else u) from rfl]
    rw [find?_tid_map db.users _ hupd i, hw]
    rfl

theorem auth_leaves_account (db : DB) (tg : TelegramUser) (rc sp : Option String)
    (picks : Nat → Nat → Nat) (now : Int) (ferr : Option String) :
    ∃ w, get_by_telegram_id (authenticate_telegram db tg rc sp picks now ferr).1 tg.id =
      some w := by
  cases hfind : get_by_telegram_id db tg.id with
  | some u =>
    simp only [authenticate_telegram, hfind]
    rw [get_by_tid_update_last_login, hfind]
    exact ⟨_, rfl⟩
  | none =>
    simp only [authenticate_telegram, hfind]
    split
    · split
      · exact get_by_tid_apply_referral _ _ _ ferr now tg.id _
          (get_by_tid_create db tg picks now 1000 hfind)
      · exact ⟨_, get_by_tid_create db tg picks now 1000 hfind⟩
    · exact ⟨_, get_by_tid_create db tg picks now 1000 hfind⟩

theorem auth_existing (db : DB) (tg : TelegramUser) (rc sp : Option String)
    (picks : Nat → Nat → Nat) (now : Int) (ferr : Option String) (w : User)
    (hw : get_by_telegram_id db tg.id = some w) :
    authenticate_telegram db tg rc sp picks now ferr =
      (update_last_login db w.id now,
       { is_new_player := false, player_id := w.id, own_referral_code := w.referral_code,
         referral := if pyTruthyOptStr (if pyTruthyOptStr rc then rc else sp) then
             some (notApplied "Referral code can only be applied on first login")
           else none }) := by
  simp only [authenticate_telegram, hw]

/-- C7: authenticating twice with the same external id never creates a second
account: the second call reports an existing player, its only state change is
the refreshed last-authenticated timestamp of the matched account, the user
count, friendships and id counter are unchanged, and every account keeps its
profile fields, code, balance and referral linkage. -/
theorem C7_idempotent_login (db : DB) (tg1 tg2 : TelegramUser)
    (rc1 sp1 rc2 sp2 : Option String) (p1 p2 : Nat → Nat → Nat)
    (n1 n2 : Int) (f1 f2 : Option String) (hid : tg2.id = tg1.id) :
    (authenticate_telegram (authenticate_telegram db tg1 rc1 sp1 p1 n1 f1).1
        tg2 rc2 sp2 p2 n2 f2).2.is_new_player = false ∧
    ∃ w, get_by_telegram_id (authenticate_telegram db tg1 rc1 sp1 p1 n1 f1).1 tg2.id =
        some w ∧
      (authenticate_telegram (authenticate_telegram db tg1 rc1 sp1 p1 n1 f1).1
          tg2 rc2 sp2 p2 n2 f2).1 =
        update_last_login (authenticate_telegram db tg1 rc1 sp1 p1 n1 f1).1 w.id n2 ∧
      (authenticate_telegram (authenticate_telegram db tg1 rc1 sp1 p1 n1 f1).1
          tg2 rc2 sp2 p2 n2 f2).1.users.length =
        (authenticate_telegram db tg1 rc1 sp1 p1 n1 f1).1.users.length ∧
      (authenticate_telegram (authenticate_telegram db tg1 rc1 sp1 p1 n1 f1).1
          tg2 rc2 sp2 p2 n2 f2).1.friendships =
        (authenticate_telegram db tg1 rc1 sp1 p1 n1 f1).1.friendships ∧
      (∀ u ∈ (authenticate_telegram db tg1 rc1 sp1 p1 n1 f1).1.users,
        ∃ v ∈ (authenticate_telegram (authenticate_telegram db tg1 rc1 sp1 p1 n1 f1).1
            tg2 rc2 sp2 p2 n2 f2).1.users,
          v.id = u.id ∧ v.telegram_id = u.telegram_id ∧ v.username = u.username ∧
          v.first_name = u.first_name ∧ v.last_name = u.last_name ∧
          v.photo_url = u.photo_url ∧ v.level = u.level ∧ v.watts = u.watts ∧
          v.referral_code = u.referral_code ∧ v.referred_by_id = u.referred_by_id) := by
  obtain ⟨w, hw⟩ := auth_leaves_account db tg1 rc1 sp1 p1 n1 f1
  have hw2 : get_by_telegram_id (authenticate_telegram db tg1 rc1 sp1 p1 n1 f1).1 tg2.id =
      some w := by
    rw [hid]
    exact hw
  have hstep := auth_existing (authenticate_telegram db tg1 rc1 sp1 p1 n1 f1).1
    tg2 rc2 sp2 p2 n2 f2 w hw2
  constructor
  · rw [hstep]
  · refine ⟨w, hw2, ?_, ?_, ?_, ?_⟩
    · rw [hstep]
    · rw [hstep]
      simp [update_last_login]
    · rw [hstep]
      rfl
    · intro u hu
      rw [hstep]
      refine ⟨if u.id = w.id then { u with last_login_at := n2 } else u, ?_, ?_⟩
      · simp only [update_last_login]
        exact List.mem_map_of_mem _ hu
      · by_cases h : u.id = w.id
        · rw [if_pos h]
          exact ⟨rfl, rfl, rfl, rfl, rfl, rfl, rfl, rfl, rfl, rfl⟩
        · rw [if_neg h]
          exact ⟨rfl, rfl, rfl, rfl, rfl, rfl, rfl, rfl, rfl, rfl⟩

/-- C7 witness: a fresh signup followed by a second authentication of the
same identity reports an existing player. -/
theorem C7_witness :
    (authenticate_telegram (authenticate_telegram exDb0 exTgA none none exPicks 10 none).1
        exTgA none none exPicks 20 none).2.is_new_player = false :=
  (C7_idempotent_login exDb0 exTgA exTgA none none none none exPicks exPicks
    10 20 none none rfl).1

theorem generate_referral_code_length (n : Nat) (pick : Nat → Nat) :
    (generate_referral_code n pick).length = n := by
  simp [generate_referral_code, String.length]

theorem generate_referral_code_alphabet (n : Nat) (pick : Nat → Nat) :
    ∀ c ∈ (generate_referral_code n pick).data, c ∈ referralAlphabet := by
  intro c hc
  simp only [generate_referral_code] at hc
  rcases List.mem_map.mp hc with ⟨i, _, hi⟩
  have hlt : pick i % 31 < referralAlphabet.length := Nat.mod_lt _ (by decide)
  rw [← hi, List.getD_eq_getElem _ _ hlt]
  exact List.getElem_mem hlt

theorem genUniqueGo_all_taken (db : DB) (picks : Nat → Nat → Nat) :
    ∀ fuel i, i + fuel = 10 →
      (∀ j, i ≤ j → j < 10 →
        referral_code_taken db (generate_referral_code referral_code_length (picks j)) =
          true) →
      genUniqueGo db picks i fuel =
        generate_referral_code (referral_code_length + 4) (picks 10) := by
  intro fuel
  induction fuel with
  | zero =>
    intro i _ _
    rfl
  | succ f ih =>
    intro i hi hall
    have hi10 : i < 10 := by omega
    rw [genUniqueGo]
    rw [hall i le_rfl hi10]
    exact ih (i + 1) (by omega) (fun j hj hj10 => hall j (by omega) hj10)

theorem genUniqueGo_first_free (db : DB) (picks : Nat → Nat → Nat) :
    ∀ fuel i, i + fuel = 10 →
      ∀ j, i ≤ j → j < 10 →
      (∀ m, i ≤ m → m < j →
        referral_code_taken db (generate_referral_code referral_code_length (picks m)) =
          true) →
      referral_code_taken db (generate_referral_code referral_code_length (picks j)) =
        false →
      genUniqueGo db picks i fuel =
        generate_referral_code referral_code_length (picks j) := by
  intro fuel
  induction fuel with
  | zero =>
    intro i hi j hij hj10 _ _
    omega
  | succ f ih =>
    intro i hi j hij hj10 hbefore hfree
    rw [genUniqueGo]
    cases hcur : referral_code_taken db
        (generate_referral_code referral_code_length (picks i)) with
    | true =>
      have hij2 : i ≠ j := by
        intro he
        rw [he, hfree] at hcur
        cases hcur
      rw [if_pos rfl]
      exact ih (i + 1) (by omega) j (by omega) hj10
        (fun m hm hmj => hbefore m (by omega) hmj) hfree
    | false =>
      have hji : j = i := by
        by_contra hne
        have hlt : i < j := by omega
        rw [hbefore i le_rfl hlt] at hcur
        cases hcur
      simp only [Bool.false_eq_true, if_false]
      rw [hji]

theorem genUniqueGo_length (db : DB) (picks : Nat → Nat → Nat) :
    ∀ fuel i, (genUniqueGo db picks i fuel).length = referral_code_length ∨
      (genUniqueGo db picks i fuel).length = referral_code_length + 4 := by
  intro fuel
  induction fuel with
  | zero =>
    intro i
    right
    exact generate_referral_code_length _ _
  | succ f ih =>
    intro i
    rw [genUniqueGo]
    cases hcur : referral_code_taken db
        (generate_referral_code referral_code_length (picks i)) with
    | true =>
      rw [if_pos rfl]
      exact ih (i + 1)
    | false =>
      simp only [Bool.false_eq_true, if_false]
      left
      exact generate_referral_code_length _ _

theorem genUniqueGo_alphabet (db : DB) (picks : Nat → Nat → Nat) :
    ∀ fuel i, ∀ c ∈ (genUniqueGo db picks i fuel).data, c ∈ referralAlphabet := by
  intro fuel
  induction fuel with
  | zero =>
    intro i
    exact generate_referral_code_alphabet _ _
  | succ f ih =>
    intro i c hc
    rw [genUniqueGo] at hc
    cases hcur : referral_code_taken db
        (generate_referral_code referral_code_length (picks i)) with
    | true =>
      rw [hcur, if_pos rfl] at hc
      exact ih (i + 1) c hc
    | false =>
      rw [hcur] at hc
      simp only [Bool.false_eq_true, if_false] at hc
      exact generate_referral_code_alphabet _ _ c hc

/-- C8: an account created by authentication starts at level 1 with the 1000
initial grant, no referrer, the profile fields of the claim, and a referral
code over the 31-symbol alphabet (uppercase letters and digits without
0, O, I, L, 1) of the configured length, generated with up to ten
uniqueness-checked attempts and a single length-plus-four fallback. -/
theorem C8_account_initialization (db : DB) (tg : TelegramUser)
    (picks : Nat → Nat → Nat) (now : Int) :
    (create_user db tg picks now 1000).2.level = 1 ∧
    (create_user db tg picks now 1000).2.watts = 1000 ∧
    (create_user db tg picks now 1000).2.referred_by_id = none ∧
    (create_user db tg picks now 1000).2.telegram_id = tg.id ∧
    (create_user db tg picks now 1000).2.username = tg.username ∧
    (create_user db tg picks now 1000).2.first_name = tg.first_name ∧
    (create_user db tg picks now 1000).2.last_name = tg.last_name ∧
    (create_user db tg picks now 1000).2.photo_url = tg.photo_url ∧
    (create_user db tg picks now 1000).2.language_code = tg.language_code ∧
    (create_user db tg picks now 1000).2.is_premium = tg.is_premium ∧
    (create_user db tg picks now 1000).1.users =
      db.users ++ [(create_user db tg picks now 1000).2] ∧
    referralAlphabet.length = 31 ∧
    (∀ c ∈ (create_user db tg picks now 1000).2.referral_code.data,
      c ∈ referralAlphabet) ∧
    ((create_user db tg picks now 1000).2.referral_code.length = referral_code_length ∨
      (create_user db tg picks now 1000).2.referral_code.length =
        referral_code_length + 4) ∧
    ((∀ j, j < 10 →
        referral_code_taken db (generate_referral_code referral_code_length (picks j)) =
          true) →
      (create_user db tg picks now 1000).2.referral_code =
        generate_referral_code (referral_code_length + 4) (picks 10)) ∧
    (∀ j, j < 10 →
      (∀ m, m < j →
        referral_code_taken db (generate_referral_code referral_code_length (picks m)) =
          true) →
      referral_code_taken db (generate_referral_code referral_code_length (picks j)) =
        false →
      (create_user db tg picks now 1000).2.referral_code =
        generate_referral_code referral_code_length (picks j)) := by
  refine ⟨rfl, rfl, rfl, rfl, rfl, rfl, rfl, rfl, rfl, rfl, rfl, rfl, ?_, ?_, ?_, ?_⟩
  · exact genUniqueGo_alphabet db picks 10 0
  · exact genUniqueGo_length db picks 10 0
  · intro hall
    exact genUniqueGo_all_taken db picks 10 0 rfl (fun j _ hj10 => hall j hj10)
  · intro j hj10 hbefore hfree
    exact genUniqueGo_first_free db picks 10 0 rfl j (Nat.zero_le j) hj10
      (fun m _ hmj => hbefore m hmj) hfree

/-- C8 witness: with no colliding codes the first attempt is kept, and the new
account starts at level 1. -/
theorem C8_witness :
    (create_user exDb exTgB exPicks 20 1000).2.level = 1 ∧
    (create_user exDb exTgB exPicks 20 1000).2.referral_code =
      generate_referral_code referral_code_length (exPicks 0) := by
  have h := C8_account_initialization exDb exTgB exPicks 20
  refine ⟨h.1, ?_⟩
  exact h.2.2.2.2.2.2.2.2.2.2.2.2.2.2.2 0 (by decide)
    (fun m hm => absurd hm (Nat.not_lt_zero m)) (by decide)

/-- C9: the read-side statistics: the stats endpoint derives the total bonus
as the count of accounts referred by the requester times the configured rate,
and the friends list grants the per-friend bonus exactly to friends whose
referral back-reference is the requester, zero otherwise; the reported total
is the sum of the per-friend bonuses. -/
theorem C9_referral_statistics (db : DB) (u : User) :
    (get_referral_stats db u).total_bonus_earned =
      ((db.users.filter fun x => x.referred_by_id == some u.id).length : Int) *
        referral_bonus_watts ∧
    (get_referral_stats db u).total_friends_invited =
      (db.users.filter fun x => x.referred_by_id == some u.id).length ∧
    (∀ p ∈ get_friends db u,
      (friend_your_bonus u p.1 = referral_bonus_watts ↔
        p.1.referred_by_id = some u.id) ∧
      (p.1.referred_by_id ≠ some u.id → friend_your_bonus u p.1 = 0)) ∧
    ((get_friends_response db u).1.map FriendInfo.your_bonus =
      (get_friends db u).map fun p => friend_your_bonus u p.1) ∧
    (get_friends_response db u).2 =
      ((get_friends_response db u).1.map FriendInfo.your_bonus).sum := by
  refine ⟨rfl, rfl, ?_, ?_, rfl⟩
  · intro p _
    constructor
    · rw [friend_your_bonus]
      by_cases he : p.1.referred_by_id = some u.id
      · simp [he]
      · have hb : (p.1.referred_by_id == some u.id) = false := by
          simp [he]
        rw [hb]
        simp only [Bool.false_eq_true, if_false]
        constructor
        · intro h0
          exact absurd h0.symm (by decide)
        · intro hr
          exact absurd hr he
    · intro hne
      rw [friend_your_bonus]
      have hb : (p.1.referred_by_id == some u.id) = false := by
        simp [hne]
      rw [hb]
      simp
  · simp [get_friends_response, List.map_map]

/-- C9 witness: in a state where Bob was referred by Alice, the friends list
grants Alice exactly the configured bonus for Bob. -/
theorem C9_witness :
    friend_your_bonus exAlice exBob = referral_bonus_watts :=
  ((C9_referral_statistics exDbF exAlice).2.2.1 (exBob, ⟨1, 2, "referral", 20⟩)
    (by decide)).1.mpr (by decide)

/-- C10: an empty-string explicit referral code behaves exactly as an absent
one: authentication is unchanged if the blank is replaced by nothing (the
deep-link parameter is used instead), and when the effective code is absent or
blank a new user gets the no-code-provided outcome. -/
theorem C10_blank_explicit_code (db : DB) (tg : TelegramUser) (sp : Option String)
    (picks : Nat → Nat → Nat) (now : Int) (ferr : Option String) :
    authenticate_telegram db tg (some "") sp picks now ferr =
      authenticate_telegram db tg none sp picks now ferr ∧
    (∀ rc : Option String, pyTruthyOptStr rc = false → pyTruthyOptStr sp = false →
      get_by_telegram_id db tg.id = none →
      (authenticate_telegram db tg rc sp picks now ferr).2.referral =
        some (notApplied "No referral code provided")) := by
  constructor
  · rfl
  · intro rc hrc hsp hnew
    have hfb : pyTruthyOptStr (if pyTruthyOptStr rc then rc else sp) = false := by
      rw [hrc]
      simp [hsp]
    simp [authenticate_telegram, hnew, hfb]

/-- C10 witness: blank explicit code and blank deep-link parameter yield the
no-code-provided outcome for a new user. -/
theorem C10_witness :
    (authenticate_telegram exDb0 exTgA (some "") (some "") exPicks 5 none).2.referral =
      some (notApplied "No referral code provided") :=
  (C10_blank_explicit_code exDb0 exTgA (some "") exPicks 5 none).2 (some "")
    (by decide) (by decide) (by decide)
